import Mathlib

/-!
Verification development for the coin-ai trading core.

Shallow embedding of the shared decision/simulation engine:
  * `OrderPlanner.planOrder`        (src/planner/OrderPlanner.ts)
  * volatility signal detection     (src/trading/TradingCore.ts)
  * `BacktestSimulator`             (src/backtest/BacktestSimulator.ts)
  * `GuardrailEngine`               (src/unnamed/part_003)
  * `bootstrapExpectancyCI`         (src/backtest/testBreakout.ts)

Numbers are embedded as exact rationals (`ℚ`): the TypeScript source uses IEEE
doubles, whose NaN/Infinity escape hatches are noted where relevant.
`Number(q.toFixed(8))` is modelled as decimal rounding half-up at 8 places.
Wall-clock reads (`Date.now()`, local day keys) are abstracted into explicit
parameters so that the day-scoped state machines stay deterministic.
-/

set_option maxRecDepth 4000

set_option maxHeartbeats 2000000

namespace CoinAI

/-- Trade direction (src/models/upbit/order.model.ts, `enum TradeSide`). -/
inductive TradeSide where
  | LONG
  | SHORT
deriving DecidableEq, Repr

/-- OHLCV bar (src/models/upbit/order.model.ts, `interface Candle`).
`open` is a Lean keyword, hence the trailing underscore. -/
structure Candle where
  timestamp : ℤ
  open_ : ℚ
  high : ℚ
  low : ℚ
  close : ℚ
  volume : ℚ
deriving DecidableEq, Repr

/-- Signal kind of a `VolatilitySignal`. -/
inductive SignalType where
  | ATR_SPIKE
  | PRICE_SURGE
  | VOLUME_SPIKE
deriving DecidableEq, Repr

/-- Direction tag of a `VolatilitySignal`. -/
inductive Direction where
  | UP
  | DOWN
  | NEUTRAL
deriving DecidableEq, Repr

/-- Per-bar volatility event (src/models/upbit/order.model.ts). -/
structure VolatilitySignal where
  type : SignalType
  value : ℚ
  threshold : ℚ
  direction : Direction
  timestamp : ℤ
  atrPercent : Option ℚ
deriving DecidableEq, Repr

/-- Decision-provider output (src/models/upbit/order.model.ts,
`interface AgentDecision`). -/
structure AgentDecision where
  shouldTrade : Bool
  side : Option TradeSide
  confidence : ℚ
  entryPrice : Option ℚ
  targetPrice : Option ℚ
  stopLoss : Option ℚ
  reasoning : String
deriving DecidableEq, Repr

/-- Open holding (src/models/upbit/order.model.ts, `interface Position`).
`timestamp` is set from `Date.now()` in the source; the wall clock is
abstracted to the value `0` since nothing in the core reads it back. -/
structure Position where
  symbol : String
  side : TradeSide
  entryPrice : ℚ
  quantity : ℚ
  timestamp : ℤ
  unrealizedPnl : ℚ
deriving DecidableEq, Repr

/-- Market snapshot handed to the planner (src/models/upbit/order.model.ts). -/
structure MarketData where
  symbol : String
  price : ℚ
  timestamp : ℤ
  candles : List Candle
deriving DecidableEq, Repr

/-- Planner-side portfolio snapshot (src/planner/OrderPlanner.ts). -/
structure PortfolioState where
  totalEquityKrw : ℚ
  cashKrw : ℚ
  positions : List Position
  realizedPnlTodayPct : ℚ
deriving DecidableEq, Repr

/-- Per-symbol risk policy (src/planner/OrderPlanner.ts, `RiskPolicy`). -/
structure RiskPolicy where
  riskPerTradePct : ℚ
  maxPositionPctPerSymbol : ℚ
  maxTotalExposurePct : ℚ
  maxDailyLossPct : ℚ
  minNotionalKrw : ℚ
  maxNotionalKrw : ℚ
  fallbackStopLossPct : ℚ
deriving DecidableEq, Repr

/-- Order kind (src/planner/OrderPlanner.ts, `enum PlanOrderType`). -/
inductive PlanOrderType where
  | MARKET
  | LIMIT
deriving DecidableEq, Repr

/-- Risk summary attached to accepted plans (src/planner/OrderPlanner.ts). -/
structure RiskSummary where
  appliedRiskPct : ℚ
  riskAmountKrw : ℚ
  symbolExposureBefore : ℚ
  symbolExposureAfter : Option ℚ
  totalExposureBefore : ℚ
  totalExposureAfter : Option ℚ
  riskScale : Option ℚ
deriving DecidableEq, Repr

/-- Planner output (src/planner/OrderPlanner.ts, `interface OrderPlan`). -/
structure OrderPlan where
  shouldExecute : Bool
  symbol : String
  side : Option TradeSide
  orderType : PlanOrderType
  quantity : Option ℚ
  entryPrice : Option ℚ
  stopLoss : Option ℚ
  targetPrice : Option ℚ
  notionalKrw : Option ℚ
  reason : String
  riskSummary : Option RiskSummary
deriving DecidableEq, Repr

/-- Explicit stop/target ratio pair (`customSlTp` parameter of `planOrder`). -/
structure SlTp where
  sl : ℚ
  tp : ℚ
deriving DecidableEq, Repr

namespace OrderPlanner

/-- `OrderPlanner.reject` (src/planner/OrderPlanner.ts line 186). -/
def reject (symbol reason : String) : OrderPlan :=
  { shouldExecute := false, symbol := symbol, side := none, orderType := .MARKET,
    quantity := none, entryPrice := none, stopLoss := none, targetPrice := none,
    notionalKrw := none, reason := reason, riskSummary := none }

/-- `OrderPlanner.findPosition` (line 190). -/
def findPosition (positions : List Position) (symbol : String) : Option Position :=
  positions.find? (fun p => p.symbol == symbol)

/-- `OrderPlanner.calcSymbolExposure` (line 194). -/
def calcSymbolExposure (pos : Option Position) (price : ℚ) : ℚ :=
  match pos with
  | none => 0
  | some p => p.quantity * price

/-- `OrderPlanner.calcTotalExposure` (line 199). -/
def calcTotalExposure (portfolio : PortfolioState) : ℚ :=
  max 0 (portfolio.totalEquityKrw - portfolio.cashKrw)

/-- `OrderPlanner.clamp` (line 216). -/
def clamp (v mn mx : ℚ) : ℚ := min mx (max mn v)

/-- `OrderPlanner.positiveNum` (line 220): `Number.isFinite(n) && n > 0`.
NaN and infinities do not exist in `ℚ`, so only positivity remains. -/
def positiveNum (v : Option ℚ) : Option ℚ :=
  match v with
  | none => none
  | some n => if 0 < n then some n else none

/-- `OrderPlanner.roundQty` (line 225): `Number(q.toFixed(8))`, modelled as
decimal rounding half-up at 8 fractional digits. -/
def roundQty (q : ℚ) : ℚ := (round (q * 100000000) : ℤ) / 100000000

/-- `OrderPlanner.calcStopLoss` (lines 203-214). -/
def calcStopLoss (side : TradeSide) (decisionStopLoss : Option ℚ)
    (entryPrice slRatio : ℚ) : ℚ :=
  let fallback := entryPrice * slRatio
  let fb := match side with
    | .LONG => entryPrice - fallback
    | .SHORT => entryPrice + fallback
  match positiveNum decisionStopLoss with
  | some raw =>
    match side with
    | .LONG => if raw < entryPrice then raw else fb
    | .SHORT => if entryPrice < raw then raw else fb
  | none => fb

/-- Per-unit currency risk including round-trip fees
(src/planner/OrderPlanner.ts lines 100-109). -/
def perUnitRiskCalc (side : TradeSide) (entryPrice stopLoss feeRate : ℚ) : ℚ :=
  match side with
  | .LONG => entryPrice * (1 + feeRate) - stopLoss * (1 - feeRate)
  | .SHORT => stopLoss * (1 + feeRate) - entryPrice * (1 - feeRate)

/-- `OrderPlanner.checkRewardAfterFees` (lines 229-252).  The `perUnitRisk`
argument is unused in the source body as well. -/
def checkRewardAfterFees (side : TradeSide)
    (entryPrice targetPrice _perUnitRisk feeRate : ℚ) : Option String :=
  match side with
  | .LONG =>
    if targetPrice * (1 - feeRate) - entryPrice * (1 + feeRate) ≤ 0 then
      some "Reward after fees is non-positive"
    else none
  | .SHORT =>
    if entryPrice * (1 - feeRate) - targetPrice * (1 + feeRate) ≤ 0 then
      some "Reward after fees is non-positive"
    else none

/-- Risk amount used for sizing (lines 79-89): equity x applied risk pct,
floored up to the policy minimum notional. -/
def riskAmountCalc (risk : RiskPolicy) (totalEquityKrw confidence riskScale : ℚ) : ℚ :=
  max (totalEquityKrw * (risk.riskPerTradePct * clamp (confidence / 100) 0 1 * riskScale))
    risk.minNotionalKrw

/-- The confidence factor of line 74: `clamp(confidence / 100, 0, 1)`. -/
def confidenceFactor (decision : AgentDecision) : ℚ :=
  clamp (decision.confidence / 100) 0 1

/-- `appliedRiskPct` of line 79. -/
def appliedRiskPctCalc (risk : RiskPolicy) (decision : AgentDecision) (riskScale : ℚ) : ℚ :=
  risk.riskPerTradePct * confidenceFactor decision * riskScale

/-- The stop-loss ratio applied (line 96): `customSlTp?.sl ?? fallbackStopLossPct`. -/
def slRatioOf (risk : RiskPolicy) (customSlTp : Option SlTp) : ℚ :=
  (customSlTp.map SlTp.sl).getD risk.fallbackStopLossPct

/-- The take-profit ratio applied (line 147): `customSlTp?.tp ?? fallbackStopLossPct * 2`. -/
def tpRatioOf (risk : RiskPolicy) (customSlTp : Option SlTp) : ℚ :=
  (customSlTp.map SlTp.tp).getD (risk.fallbackStopLossPct * 2)

/-- `symbolExposureBefore` of line 71. -/
def symbolExposureBefore (portfolio : PortfolioState) (marketData : MarketData) : ℚ :=
  calcSymbolExposure (findPosition portfolio.positions marketData.symbol) marketData.price

/-- The stop loss resolved for the decision (line 97). -/
def stopLossOf (risk : RiskPolicy) (decision : AgentDecision) (side : TradeSide)
    (entryPrice : ℚ) (customSlTp : Option SlTp) : ℚ :=
  calcStopLoss side decision.stopLoss entryPrice (slRatioOf risk customSlTp)

/-- `quantityByRisk` of line 115: risk amount over per-unit risk. -/
def quantityByRiskCalc (risk : RiskPolicy) (feeRate : ℚ) (decision : AgentDecision)
    (portfolio : PortfolioState) (side : TradeSide) (entryPrice riskScale : ℚ)
    (customSlTp : Option SlTp) : ℚ :=
  riskAmountCalc risk portfolio.totalEquityKrw decision.confidence riskScale /
    perUnitRiskCalc side entryPrice (stopLossOf risk decision side entryPrice customSlTp) feeRate

/-- `maxAllowed` of lines 122-129: the headroom clamp
min(remaining per-symbol, remaining total, policy max-notional, cash). -/
def maxAllowedOf (risk : RiskPolicy) (portfolio : PortfolioState) (marketData : MarketData) : ℚ :=
  min
    (min
      (min
        (max 0 (portfolio.totalEquityKrw * risk.maxPositionPctPerSymbol -
          symbolExposureBefore portfolio marketData))
        (max 0 (portfolio.totalEquityKrw * risk.maxTotalExposurePct -
          calcTotalExposure portfolio)))
      risk.maxNotionalKrw)
    portfolio.cashKrw

/-- `finalNotionalKrw` of line 135: desired notional clamped to the headroom. -/
def finalNotionalOf (risk : RiskPolicy) (feeRate : ℚ) (decision : AgentDecision)
    (marketData : MarketData) (portfolio : PortfolioState) (side : TradeSide)
    (entryPrice riskScale : ℚ) (customSlTp : Option SlTp) : ℚ :=
  min (quantityByRiskCalc risk feeRate decision portfolio side entryPrice riskScale customSlTp *
    entryPrice) (maxAllowedOf risk portfolio marketData)

/-- `targetPrice` of lines 148-150: explicit target, else the fallback ratio. -/
def targetPriceOf (risk : RiskPolicy) (decision : AgentDecision) (side : TradeSide)
    (entryPrice : ℚ) (customSlTp : Option SlTp) : ℚ :=
  decision.targetPrice.getD
    (match side with
      | .LONG => entryPrice * (1 + tpRatioOf risk customSlTp)
      | .SHORT => entryPrice * (1 - tpRatioOf risk customSlTp))

/-- `OrderPlanner.planOrder` (src/planner/OrderPlanner.ts lines 51-184).
`feeRate` stands for `GLOBAL_CONFIG.feeRate`; `src/config/config.ts` is not in
the source tree, so the fee rate is passed explicitly, matching the spec's
configuration surface.  Each `const` of the source body is named by one of the
helper definitions above instead of a local `let`. -/
def planOrder (risk : RiskPolicy) (feeRate : ℚ) (decision : AgentDecision)
    (marketData : MarketData) (portfolio : PortfolioState)
    (riskScale : ℚ) (customSlTp : Option SlTp) : OrderPlan :=
  if decision.shouldTrade = false then reject marketData.symbol "Agent decided not to trade"
  else
    match decision.side with
    | none => reject marketData.symbol "Agent decided not to trade"
    | some side =>
      if confidenceFactor decision ≤ 0 then reject marketData.symbol "Confidence too low"
      else
        match positiveNum (some (decision.entryPrice.getD marketData.price)) with
        | none => reject marketData.symbol "Invalid entry price"
        | some entryPrice =>
          if perUnitRiskCalc side entryPrice (stopLossOf risk decision side entryPrice customSlTp)
              feeRate ≤ 0 then
            reject marketData.symbol "Invalid stopLoss/entryPrice combination (after fees)"
          else
            if quantityByRiskCalc risk feeRate decision portfolio side entryPrice riskScale
                customSlTp ≤ 0 then
              reject marketData.symbol "Computed quantity is invalid"
            else
              if maxAllowedOf risk portfolio marketData ≤ 0 then
                reject marketData.symbol "No capacity for additional exposure"
              else
                if finalNotionalOf risk feeRate decision marketData portfolio side entryPrice
                    riskScale customSlTp < risk.minNotionalKrw then
                  reject marketData.symbol "Final notional below minimum"
                else
                  if roundQty (finalNotionalOf risk feeRate decision marketData portfolio side
                      entryPrice riskScale customSlTp / entryPrice) ≤ 0 then
                    reject marketData.symbol "Final quantity invalid after rounding"
                  else
                    match checkRewardAfterFees side entryPrice
                        (targetPriceOf risk decision side entryPrice customSlTp)
                        (perUnitRiskCalc side entryPrice
                          (stopLossOf risk decision side entryPrice customSlTp) feeRate)
                        feeRate with
                    | some msg => reject marketData.symbol msg
                    | none =>
                      { shouldExecute := true, symbol := marketData.symbol, side := some side,
                        orderType := .MARKET,
                        quantity := some (roundQty (finalNotionalOf risk feeRate decision
                          marketData portfolio side entryPrice riskScale customSlTp / entryPrice)),
                        entryPrice := some entryPrice,
                        stopLoss := some (stopLossOf risk decision side entryPrice customSlTp),
                        targetPrice := some (targetPriceOf risk decision side entryPrice customSlTp),
                        notionalKrw := some (finalNotionalOf risk feeRate decision marketData
                          portfolio side entryPrice riskScale customSlTp),
                        reason := decision.reasoning,
                        riskSummary := some
                          { appliedRiskPct := appliedRiskPctCalc risk decision riskScale,
                            riskAmountKrw := riskAmountCalc risk portfolio.totalEquityKrw
                              decision.confidence riskScale,
                            symbolExposureBefore := symbolExposureBefore portfolio marketData,
                            symbolExposureAfter := some (symbolExposureBefore portfolio marketData +
                              finalNotionalOf risk feeRate decision marketData portfolio side
                                entryPrice riskScale customSlTp),
                            totalExposureBefore := calcTotalExposure portfolio,
                            totalExposureAfter := some (calcTotalExposure portfolio +
                              finalNotionalOf risk feeRate decision marketData portfolio side
                                entryPrice riskScale customSlTp),
                            riskScale := some riskScale } }

end OrderPlanner

namespace OrderPlanner

end OrderPlanner

/-- Default candle used for out-of-range list access.  The TypeScript source
would crash on such access; every modelled call keeps indices in bounds. -/
def dummyCandle : Candle := { timestamp := 0, open_ := 0, high := 0, low := 0, close := 0, volume := 0 }

/-- Signal thresholds (src/trading/TradingCore.ts, `VolatilityThresholds`). -/
structure VolatilityThresholds where
  atrMultiplier : ℚ
  priceSurgePct : ℚ
  volumeSpikeMultiplier : ℚ
deriving DecidableEq, Repr

/-- A scored signal candidate (src/trading/TradingCore.ts, `SignalCandidate`). -/
structure SignalCandidate where
  strength : ℚ
  signal : VolatilitySignal
deriving DecidableEq, Repr

/-- `trueRange` (src/trading/TradingCore.ts lines 131-136). -/
def trueRange (c : Candle) (prevClose : ℚ) : ℚ :=
  max (c.high - c.low) (max (abs (c.high - prevClose)) (abs (c.low - prevClose)))

/-- `calcAtrWilderWindow` (src/trading/TradingCore.ts lines 95-129): Wilder ATR
anchored at `endIndex` over at most `windowLen` bars. -/
def calcAtrWilderWindow (candles : List Candle) (endIndex period windowLen : ℕ) : ℚ :=
  let start := max 1 (endIndex + 1 - windowLen)
  let initStart := max start (endIndex + 1 - windowLen)
  let initEnd := min endIndex (initStart + period - 1)
  let idxInit := List.range' initStart (initEnd + 1 - initStart)
  let trSum := idxInit.foldl
    (fun s k => s + trueRange (candles.getD k dummyCandle) (candles.getD (k - 1) dummyCandle).close) 0
  let atr0 := if 0 < idxInit.length then trSum / (idxInit.length : ℚ) else 0
  (List.range' (initEnd + 1) (endIndex - initEnd)).foldl
    (fun atr k =>
      (atr * ((period : ℚ) - 1) +
        trueRange (candles.getD k dummyCandle) (candles.getD (k - 1) dummyCandle).close) /
        (period : ℚ))
    atr0

/-- `buildDirection3` (src/trading/TradingCore.ts lines 267-276). -/
def buildDirection3 (candles : List Candle) (i : ℕ) : Direction :=
  let first := candles.getD (i - 2) dummyCandle
  let last := candles.getD i dummyCandle
  let change := last.close - first.open_
  if 0 < change then .UP else if change < 0 then .DOWN else .NEUTRAL

/-- `buildAtrSpikeCandidate` (src/trading/TradingCore.ts lines 174-203). -/
def buildAtrSpikeCandidate (candles : List Candle) (thresholds : VolatilityThresholds)
    (i : ℕ) (atr avgAtr atrPercent : ℚ) : Option SignalCandidate :=
  if avgAtr ≤ 0 then none
  else
    let threshold := avgAtr * (1 + thresholds.atrMultiplier)
    if atr ≤ threshold then none
    else
      let ref := candles.getD (i - (14 - 1)) dummyCandle
      let direction : Direction :=
        if ref.close < (candles.getD i dummyCandle).close then .UP else .DOWN
      some
        { strength := atr / threshold,
          signal :=
            { type := .ATR_SPIKE, value := atr, threshold := threshold,
              direction := direction, timestamp := (candles.getD i dummyCandle).timestamp,
              atrPercent := some atrPercent } }

/-- `buildPriceSurgeCandidate` (src/trading/TradingCore.ts lines 205-229). -/
def buildPriceSurgeCandidate (thresholds : VolatilityThresholds)
    (last prev : Candle) (atrPercent : ℚ) : Option SignalCandidate :=
  if prev.close ≤ 0 then none
  else
    let priceChangePct := (last.close - prev.close) / prev.close
    if abs priceChangePct ≤ thresholds.priceSurgePct then none
    else
      some
        { strength := abs priceChangePct / thresholds.priceSurgePct,
          signal :=
            { type := .PRICE_SURGE, value := abs priceChangePct * 100,
              threshold := thresholds.priceSurgePct * 100,
              direction := if 0 < priceChangePct then .UP else .DOWN,
              timestamp := last.timestamp, atrPercent := some atrPercent } }

/-- `buildVolumeSpikeCandidate` (src/trading/TradingCore.ts lines 231-265). -/
def buildVolumeSpikeCandidate (candles : List Candle) (thresholds : VolatilityThresholds)
    (i : ℕ) (atrPercent : ℚ) : Option SignalCandidate :=
  if candles.length ≤ i then none
  else
    let last := candles.getD i dummyCandle
    let start := i - 30
    let sample := (candles.drop start).take (i - start)
    if sample.length < 10 then none
    else
      let avgVol := sample.foldl (fun s c => s + c.volume) 0 / (sample.length : ℚ)
      if avgVol ≤ 0 then none
      else
        let ratio := last.volume / avgVol
        if ratio ≤ thresholds.volumeSpikeMultiplier then none
        else
          some
            { strength := ratio / thresholds.volumeSpikeMultiplier,
              signal :=
                { type := .VOLUME_SPIKE, value := ratio,
                  threshold := thresholds.volumeSpikeMultiplier,
                  direction := buildDirection3 candles i,
                  timestamp := last.timestamp, atrPercent := some atrPercent } }

/-- `pickBestVolatilitySignal` (src/trading/TradingCore.ts lines 143-172).
The JavaScript stable descending sort by strength (ties keep evaluation order
ATR, price, volume) is modelled with a stable insertion sort under the
total comparator `b.strength ≤ a.strength`. -/
def pickBestVolatilitySignal (candles : List Candle) (thresholds : VolatilityThresholds)
    (i : ℕ) (atr avgAtr atrPercent : ℚ) : Option VolatilitySignal :=
  if candles.length ≤ i then none
  else
    let last := candles.getD i dummyCandle
    let prev := candles.getD (i - 1) dummyCandle
    let candidates :=
      (buildAtrSpikeCandidate candles thresholds i atr avgAtr atrPercent).toList ++
      (buildPriceSurgeCandidate thresholds last prev atrPercent).toList ++
      (buildVolumeSpikeCandidate candles thresholds i atrPercent).toList
    ((candidates.insertionSort (fun a b => b.strength ≤ a.strength)).head?).map
      SignalCandidate.signal

/-- `detectVolatilitySignalAt` (src/trading/TradingCore.ts lines 31-54). -/
def detectVolatilitySignalAt (candles : List Candle) (thresholds : VolatilityThresholds)
    (i : ℕ) : Option VolatilitySignal :=
  if i < 30 then none
  else if candles.length ≤ i then none
  else
    let last := candles.getD i dummyCandle
    let atr := calcAtrWilderWindow candles i 14 (14 + 1)
    let avgAtr := calcAtrWilderWindow candles i 14 30
    let atrPercent := atr / last.close
    pickBestVolatilitySignal candles thresholds i atr avgAtr atrPercent

/-- `detectVolatilitySignal` (src/trading/TradingCore.ts lines 24-29). -/
def detectVolatilitySignal (candles : List Candle) (thresholds : VolatilityThresholds) :
    Option VolatilitySignal :=
  detectVolatilitySignalAt candles thresholds (candles.length - 1)

/-- `atrSeries` (src/indicators, `atrSeries`): per-index Wilder ATR values.
The JavaScript reads `out[i-1]`; the fold carries that previous value
alongside the produced list. -/
def atrSeries (candles : List Candle) (period : ℕ) : List ℚ :=
  ((List.range' 0 candles.length).foldl
    (fun acc i =>
      if i = 0 then (acc.1 ++ [0], 0)
      else
        let tr := trueRange (candles.getD i dummyCandle) (candles.getD (i - 1) dummyCandle).close
        let v :=
          if i < period then acc.2 + tr / (period : ℚ)
          else if i = period then
            ((List.range' 1 period).foldl
              (fun s j => s + trueRange (candles.getD j dummyCandle)
                (candles.getD (j - 1) dummyCandle).close) 0) / (period : ℚ)
          else (acc.2 * ((period : ℚ) - 1) + tr) / (period : ℚ)
        (acc.1 ++ [v], v))
    ([], 0)).1

/-- `calculateATR` (src/indicators, `calculateATR`): last value of the Wilder
ATR series, or 0 when fewer than `period + 1` candles. -/
def calculateATR (candles : List Candle) (period : ℕ) : ℚ :=
  if candles.length < period + 1 then 0
  else (atrSeries candles period).getD (candles.length - 1) 0

namespace OrderPlanner

/-- Concrete risk policy used by witnesses: 1% risk per trade, 30% per-symbol
cap, 60% total-exposure cap, 5,000 minimum and 1,000,000 maximum notional,
2% fallback stop. -/
def wRisk : RiskPolicy :=
  { riskPerTradePct := 1/100, maxPositionPctPerSymbol := 3/10, maxTotalExposurePct := 6/10,
    maxDailyLossPct := 3/100, minNotionalKrw := 5000, maxNotionalKrw := 1000000,
    fallbackStopLossPct := 2/100 }

/-- Concrete market snapshot at price 100. -/
def wMd : MarketData := { symbol := "KRW-BTC", price := 100, timestamp := 0, candles := [] }

/-- Concrete all-cash portfolio of 1,000,000. -/
def wPf : PortfolioState :=
  { totalEquityKrw := 1000000, cashKrw := 1000000, positions := [], realizedPnlTodayPct := 0 }

/-- Concrete long trade proposal at full confidence without explicit prices. -/
def wDec : AgentDecision :=
  { shouldTrade := true, side := some .LONG, confidence := 100,
    entryPrice := none, targetPrice := none, stopLoss := none, reasoning := "w" }

/-- Small all-cash portfolio of 100,000: its raw risk amount (1% of equity at
full confidence = 1,000) is below the 5,000 minimum notional. -/
def wPf5 : PortfolioState :=
  { totalEquityKrw := 100000, cashKrw := 100000, positions := [], realizedPnlTodayPct := 0 }

/-- Risk policy with full total-exposure allowance, for the price-ordering
counterexample. -/
def cxRisk2 : RiskPolicy :=
  { riskPerTradePct := 1/100, maxPositionPctPerSymbol := 3/10, maxTotalExposurePct := 1,
    maxDailyLossPct := 3/100, minNotionalKrw := 5000, maxNotionalKrw := 1000000,
    fallbackStopLossPct := 2/100 }

/-- Portfolio with large equity but little cash, for the price-ordering
counterexample. -/
def cxPf2 : PortfolioState :=
  { totalEquityKrw := 10000000, cashKrw := 20000, positions := [], realizedPnlTodayPct := 0 }

/-- Long proposal whose explicit target price is negative; `planOrder` never
validates the sign of `decision.targetPrice`. -/
def cxDec2 : AgentDecision :=
  { shouldTrade := true, side := some .LONG, confidence := 100,
    entryPrice := none, targetPrice := some (-400), stopLoss := none, reasoning := "c" }

end OrderPlanner

/-- Simulator-held position (src/backtest/BacktestSimulator.ts,
`SimulatedPosition`): a `Position` plus entry index and protective levels. -/
structure SimulatedPosition where
  symbol : String
  side : TradeSide
  entryPrice : ℚ
  quantity : ℚ
  timestamp : ℤ
  unrealizedPnl : ℚ
  entryIndex : ℕ
  stopLoss : Option ℚ
  targetPrice : Option ℚ
  initialStopLoss : Option ℚ
deriving DecidableEq, Repr

/-- Exit reason tag of a backtest trade. -/
inductive ExitReason where
  | STOP_LOSS
  | TAKE_PROFIT
  | SIGNAL
  | END
deriving DecidableEq, Repr

/-- Closed-trade record (src/backtest/BacktestSimulator.ts, `BacktestTrade`). -/
structure BacktestTrade where
  entryIndex : ℕ
  exitIndex : ℕ
  side : TradeSide
  entryPrice : ℚ
  exitPrice : ℚ
  quantity : ℚ
  pnl : ℚ
  pnlPercent : ℚ
  exitReason : ExitReason
deriving DecidableEq, Repr

/-- Loop diagnostic counters (src/backtest/BacktestSimulator.ts, `DebugStats`). -/
structure DebugStats where
  noSignal : ℕ
  agentSkip : ℕ
  plannerReject : ℕ
  executed : ℕ
deriving DecidableEq, Repr

/-- Simulator configuration (src/backtest/BacktestSimulator.ts, `BacktestConfig`). -/
structure BacktestConfig where
  symbol : String
  initialCapitalKrw : ℚ
  riskPolicy : RiskPolicy
  volatilityThresholds : VolatilityThresholds
  feeRate : ℚ
  beTriggerR : Option ℚ
  gateOnSignal : Option Bool
  signalExitMinHoldBars : Option ℕ
  signalExitAfterBeOnly : Option Bool
deriving Repr

/-- Exit-provider result (src/backtest/BacktestSimulator.ts, `ExitProvider`). -/
structure ExitSignal where
  shouldExit : Bool
  exitPrice : Option ℚ
  reasoning : Option String
deriving DecidableEq, Repr

/-- Mutable ledger of `BacktestSimulator` (its private fields). -/
structure SimState where
  position : Option SimulatedPosition
  cashKrw : ℚ
  trades : List BacktestTrade
  equityCurve : List ℚ
  peakEquity : ℚ
  maxDrawdown : ℚ
  realizedPnlToday : ℚ
  signalCount : ℕ
  debugStats : DebugStats
deriving DecidableEq, Repr

/-- Decision-provider function type consumed by the simulator. -/
def DecisionProvider : Type :=
  List Candle → Option VolatilitySignal → Option SimulatedPosition → AgentDecision

/-- Exit-provider function type consumed by the simulator. -/
def ExitProvider : Type := List Candle → SimulatedPosition → ExitSignal

/-- Everything a `runRange` call closes over: the config, the candle series,
the two externally supplied providers, and the per-symbol configuration read
from `src/config/config.ts`.  `riskScale` models `getRiskScaleForSymbol` and
`customSlTpFor` models `getVolatilityBasedSlTp` (both modelled from the spec:
that config module is not in the source tree; the spec treats them as
externally supplied per-symbol configuration, constant for the simulator's
fixed symbol and keyed on the volatility ratio).  `plannerFeeRate` is the
`GLOBAL_CONFIG.feeRate` read inside `OrderPlanner`. -/
structure SimEnv where
  cfg : BacktestConfig
  candles : List Candle
  decisionProvider : DecisionProvider
  exitProvider : Option ExitProvider
  riskScale : ℚ
  customSlTpFor : ℚ → Option SlTp
  plannerFeeRate : ℚ

/-- JavaScript truthiness of an optional numeric field (`undefined` and `0`
are falsy; `ℚ` has no NaN). -/
def truthyQ : Option ℚ → Bool
  | none => false
  | some q => decide (q ≠ 0)

/-- `BacktestSimulator.updateEquity` (lines 237-246). -/
def updateEquity (s : SimState) (price : ℚ) : SimState :=
  let positionValue := match s.position with
    | some p => p.quantity * price
    | none => 0
  let equity := s.cashKrw + positionValue
  let peak := if s.peakEquity < equity then equity else s.peakEquity
  let dd := (peak - equity) / peak
  { s with
      equityCurve := s.equityCurve ++ [equity]
      peakEquity := peak
      maxDrawdown := if s.maxDrawdown < dd then dd else s.maxDrawdown }

/-- `BacktestSimulator.openPosition` (lines 248-275): silently skipped when the
plan is incomplete or when gross cost plus entry fee exceeds cash. -/
def openPosition (cfg : BacktestConfig) (s : SimState) (index : ℕ) (plan : OrderPlan) :
    SimState :=
  match plan.quantity, plan.side, plan.entryPrice with
  | some q, some sd, some e =>
    if q = 0 ∨ e = 0 then s
    else
      let grossCost := q * e
      let totalCost := grossCost + grossCost * cfg.feeRate
      if s.cashKrw < totalCost then s
      else
        { s with
            cashKrw := s.cashKrw - totalCost
            position := some
              { symbol := cfg.symbol, side := sd, entryPrice := e, quantity := q,
                timestamp := 0, unrealizedPnl := 0, entryIndex := index,
                stopLoss := plan.stopLoss, targetPrice := plan.targetPrice,
                initialStopLoss := plan.stopLoss } }
  | _, _, _ => s

/-- `BacktestSimulator.closePosition` (lines 277-315): guarded no-op when no
position is open; otherwise credits net proceeds, records the fee-inclusive
trade and clears the position. -/
def closePosition (cfg : BacktestConfig) (s : SimState) (index : ℕ) (exitPrice : ℚ)
    (reason : ExitReason) : SimState :=
  match s.position with
  | none => s
  | some p =>
    let grossProceeds := p.quantity * exitPrice
    let netProceeds := grossProceeds - grossProceeds * cfg.feeRate
    let entryFee := p.quantity * p.entryPrice * cfg.feeRate
    let exitFee := p.quantity * exitPrice * cfg.feeRate
    let pnl := (exitPrice - p.entryPrice) * p.quantity - (entryFee + exitFee)
    { s with
        cashKrw := s.cashKrw + netProceeds
        realizedPnlToday := s.realizedPnlToday + pnl / cfg.initialCapitalKrw
        trades := s.trades ++
          [{ entryIndex := p.entryIndex, exitIndex := index, side := p.side,
             entryPrice := p.entryPrice, exitPrice := exitPrice, quantity := p.quantity,
             pnl := pnl, pnlPercent := pnl / cfg.initialCapitalKrw * 100,
             exitReason := reason }]
        position := none }

/-- `BacktestSimulator.buildPortfolio` (lines 317-337). -/
def buildPortfolio (cfg : BacktestConfig) (s : SimState) (price : ℚ) : PortfolioState :=
  let positionValue := match s.position with
    | some p => p.quantity * price
    | none => 0
  { totalEquityKrw := s.cashKrw + positionValue
    cashKrw := s.cashKrw
    positions :=
      match s.position with
      | some p =>
        [{ symbol := p.symbol, side := p.side, entryPrice := p.entryPrice,
           quantity := p.quantity, timestamp := 0, unrealizedPnl := 0 }]
      | none => []
    realizedPnlTodayPct := s.realizedPnlToday }

/-- The trailing window of `runRange` (lines 124-125): up to `WINDOW = 300`
candles ending at bar `i`. -/
def windowAt (candles : List Candle) (i : ℕ) : List Candle :=
  let wStart := i + 1 - 300
  (candles.drop wStart).take (i + 1 - wStart)

/-- The per-bar body of `runRange` while holding a position (lines 127-167):
break-even ratchet, hard stop, hard target, then the optional exit provider. -/
def holdingStep (env : SimEnv) (s : SimState) (pos : SimulatedPosition) (i : ℕ)
    (price : ℚ) (window : List Candle) : SimState :=
  let beTriggerR := env.cfg.beTriggerR.getD (1/4)
  let sl0 : Option ℚ := match pos.initialStopLoss with
    | some v => some v
    | none => pos.stopLoss
  let fired : Bool :=
    truthyQ sl0 && truthyQ pos.stopLoss && decide (pos.stopLoss.getD 0 < pos.entryPrice) &&
      (decide (0 < pos.entryPrice - sl0.getD 0) &&
        decide (pos.entryPrice + beTriggerR * (pos.entryPrice - sl0.getD 0) ≤ price))
  let pos1 := if fired = true then
      { pos with stopLoss := some (max (pos.stopLoss.getD 0) pos.entryPrice) }
    else pos
  let beArmed : Bool :=
    fired || (truthyQ pos1.stopLoss && decide (pos1.entryPrice ≤ pos1.stopLoss.getD 0))
  let s1 := { s with position := some pos1 }
  if truthyQ pos1.stopLoss = true ∧ price ≤ pos1.stopLoss.getD 0 then
    closePosition env.cfg s1 i (pos1.stopLoss.getD 0) .STOP_LOSS
  else if truthyQ pos1.targetPrice = true ∧ pos1.targetPrice.getD 0 ≤ price then
    closePosition env.cfg s1 i (pos1.targetPrice.getD 0) .TAKE_PROFIT
  else
    match env.exitProvider with
    | none => s1
    | some exitProvider =>
      if env.cfg.signalExitMinHoldBars.getD 2 ≤ i - pos1.entryIndex ∧
          (env.cfg.signalExitAfterBeOnly.getD true = false ∨ beArmed = true) then
        let ex := exitProvider window pos1
        if ex.shouldExit = true then
          closePosition env.cfg s1 i (ex.exitPrice.getD price) .SIGNAL
        else s1
      else s1

/-- The order plan computed by the flat branch of `runRange` (lines 186-206),
with the bar's market data, portfolio snapshot and volatility-scaled custom
stop/target pair. -/
def flatBarPlan (env : SimEnv) (s : SimState) (i : ℕ) (price : ℚ)
    (window : List Candle) : OrderPlan :=
  OrderPlanner.planOrder env.cfg.riskPolicy env.plannerFeeRate
    (env.decisionProvider window (detectVolatilitySignal window env.cfg.volatilityThresholds) none)
    { symbol := env.cfg.symbol, price := price,
      timestamp := (env.candles.getD i dummyCandle).timestamp, candles := window }
    (buildPortfolio env.cfg s price)
    env.riskScale
    (env.customSlTpFor (if 0 < price then calculateATR window 14 / price else 3/100))

/-- The per-bar body of `runRange` while flat (lines 169-215): optional signal
gate, decision provider, planner, and position opening. -/
def flatStep (env : SimEnv) (s : SimState) (i : ℕ) (price : ℚ)
    (window : List Candle) : SimState :=
  let signal := detectVolatilitySignal window env.cfg.volatilityThresholds
  let s1 := match signal with
    | none => { s with debugStats := { s.debugStats with noSignal := s.debugStats.noSignal + 1 } }
    | some _ => { s with signalCount := s.signalCount + 1 }
  if signal = none ∧ env.cfg.gateOnSignal.getD false = true then s1
  else
    let decision := env.decisionProvider window signal none
    if decision.shouldTrade = false then
      { s1 with debugStats := { s1.debugStats with agentSkip := s1.debugStats.agentSkip + 1 } }
    else
      -- the counters bumped in `s1` do not enter the portfolio snapshot, so the
      -- plan built from `s1` in the source equals the plan built from `s`
      let plan := flatBarPlan env s i price window
      if plan.shouldExecute = true ∧ truthyQ plan.quantity = true ∧ plan.side ≠ none ∧
          truthyQ plan.entryPrice = true then
        let s2 := openPosition env.cfg s1 i plan
        { s2 with debugStats := { s2.debugStats with executed := s2.debugStats.executed + 1 } }
      else
        { s1 with debugStats :=
            { s1.debugStats with plannerReject := s1.debugStats.plannerReject + 1 } }

/-- One iteration of the `runRange` loop (lines 119-215). -/
def stepBar (env : SimEnv) (s : SimState) (i : ℕ) : SimState :=
  let price := (env.candles.getD i dummyCandle).close
  let s1 := updateEquity s price
  let window := windowAt env.candles i
  match s1.position with
  | some pos => holdingStep env s1 pos i price window
  | none => flatStep env s1 i price window

/-- The fresh ledger produced by `BacktestSimulator.reset` (lines 225-235). -/
def initialSimState (cfg : BacktestConfig) : SimState :=
  { position := none, cashKrw := cfg.initialCapitalKrw, trades := [], equityCurve := [],
    peakEquity := cfg.initialCapitalKrw, maxDrawdown := 0, realizedPnlToday := 0,
    signalCount := 0,
    debugStats := { noSignal := 0, agentSkip := 0, plannerReject := 0, executed := 0 } }

/-- The `runRange` loop over a list of bar indices. -/
def runBars (env : SimEnv) (s : SimState) (idxs : List ℕ) : SimState :=
  idxs.foldl (stepBar env) s

/-- The state evolution of `BacktestSimulator.runRange` (lines 103-223):
reset, loop from `max startIdx 250` to `min endIdxExclusive candles.length`,
then force-close any open position with reason `END`.  `buildResult`
(lines 339-359) only aggregates this state. -/
def runRangeState (env : SimEnv) (startIdx endIdxExclusive : ℕ) : SimState :=
  let start := max startIdx 250
  let e := min endIdxExclusive env.candles.length
  let s1 := runBars env (initialSimState env.cfg) (List.range' start (e - start))
  match s1.position with
  | some _ => closePosition env.cfg s1 (e - 1) ((env.candles.getD (e - 1) dummyCandle).close) .END
  | none => s1

/-- Flat candle at price `p` with volume `v`. -/
def flatC (p v : ℚ) : Candle :=
  { timestamp := 0, open_ := p, high := p, low := p, close := p, volume := v }

/-- Thresholds used by concrete simulator runs. -/
def wTh : VolatilityThresholds :=
  { atrMultiplier := 6/10, priceSurgePct := 15/1000, volumeSpikeMultiplier := 2 }

/-- Simulator configuration for witnesses: 0.05% fee, defaults elsewhere. -/
def wCfg : BacktestConfig :=
  { symbol := "KRW-BTC", initialCapitalKrw := 1000000, riskPolicy := OrderPlanner.wRisk,
    volatilityThresholds := wTh, feeRate := 5/10000, beTriggerR := none, gateOnSignal := none,
    signalExitMinHoldBars := none, signalExitAfterBeOnly := none }

/-- A decision provider that never trades. -/
def neverTrade : DecisionProvider := fun _ _ _ =>
  { shouldTrade := false, side := none, confidence := 0,
    entryPrice := none, targetPrice := none, stopLoss := none, reasoning := "no" }

/-- Environment for the break-even witness: 252 flat candles at 101. -/
def wEnv6 : SimEnv :=
  { cfg := wCfg, candles := List.replicate 252 (flatC 101 1000),
    decisionProvider := neverTrade, exitProvider := none, riskScale := 1,
    customSlTpFor := fun _ => none, plannerFeeRate := 5/10000 }

/-- An armed long position: stop already ratcheted to the entry price 100. -/
def wPos6 : SimulatedPosition :=
  { symbol := "KRW-BTC", side := .LONG, entryPrice := 100, quantity := 1, timestamp := 0,
    unrealizedPnl := 0, entryIndex := 250, stopLoss := some 100, targetPrice := some 104,
    initialStopLoss := some 98 }

/-- Simulator state holding `wPos6`. -/
def wS6 : SimState := { initialSimState wCfg with position := some wPos6 }

/-- Risk policy for the open-guard counterexample: full exposure allowances. -/
def cx3Risk : RiskPolicy :=
  { riskPerTradePct := 1/100, maxPositionPctPerSymbol := 1, maxTotalExposurePct := 1,
    maxDailyLossPct := 3/100, minNotionalKrw := 5000, maxNotionalKrw := 1000000,
    fallbackStopLossPct := 2/100 }

/-- Simulator config with a 5% fee and 20,000 initial capital: the accepted
plan's notional is clamped to all of cash, so cash cannot also cover the
entry fee. -/
def cx3Cfg : BacktestConfig :=
  { symbol := "KRW-BTC", initialCapitalKrw := 20000, riskPolicy := cx3Risk,
    volatilityThresholds := wTh, feeRate := 5/100, beTriggerR := none, gateOnSignal := none,
    signalExitMinHoldBars := none, signalExitAfterBeOnly := none }

/-- Decision provider that always proposes a long with explicit target 120. -/
def alwaysLong120 : DecisionProvider := fun _ _ _ =>
  { shouldTrade := true, side := some .LONG, confidence := 100, entryPrice := none,
    targetPrice := some 120, stopLoss := none, reasoning := "go" }

/-- Environment for the open-guard counterexample: 251 flat candles at 100,
so `runRange` executes exactly one bar (index 250). -/
def cx3Env : SimEnv :=
  { cfg := cx3Cfg, candles := List.replicate 251 (flatC 100 1000),
    decisionProvider := alwaysLong120, exitProvider := none, riskScale := 1,
    customSlTpFor := fun _ => none, plannerFeeRate := 5/100 }

/-- The simulator state at bar 250 of the counterexample run, after the
mark-to-market step. -/
def cx3S : SimState := updateEquity (initialSimState cx3Cfg) 100

/-- Risk policy for the C3 witness: notional capped at 40,000 so the entry
fee fits in cash. -/
def w3Risk : RiskPolicy :=
  { riskPerTradePct := 1/100, maxPositionPctPerSymbol := 1, maxTotalExposurePct := 1,
    maxDailyLossPct := 3/100, minNotionalKrw := 5000, maxNotionalKrw := 40000,
    fallbackStopLossPct := 2/100 }

/-- Simulator config for the C3 witness. -/
def w3Cfg : BacktestConfig :=
  { symbol := "KRW-BTC", initialCapitalKrw := 1000000, riskPolicy := w3Risk,
    volatilityThresholds := wTh, feeRate := 5/100, beTriggerR := none, gateOnSignal := none,
    signalExitMinHoldBars := none, signalExitAfterBeOnly := none }

/-- Environment for the C3 witness run. -/
def w3Env : SimEnv :=
  { cfg := w3Cfg, candles := List.replicate 251 (flatC 100 1000),
    decisionProvider := alwaysLong120, exitProvider := none, riskScale := 1,
    customSlTpFor := fun _ => none, plannerFeeRate := 5/100 }

/-- The witness state at bar 250 after the mark-to-market step. -/
def w3S : SimState := updateEquity (initialSimState w3Cfg) 100

/-- Flat bar at price 100 for the detection scenario. -/
def c100 : Candle :=
  { timestamp := 0, open_ := 100, high := 100, low := 100, close := 100, volume := 1000 }

/-- Bar 35 of the detection scenario: jumps to a close of 103. -/
def c103 : Candle :=
  { timestamp := 35, open_ := 100, high := 103, low := 100, close := 103, volume := 1000 }

/-- The 40-bar series of the detection scenario: flat at 100 except bar 35. -/
def candles40 : List Candle := List.replicate 35 c100 ++ c103 :: List.replicate 4 c100

/-- Guardrail decision (src/unnamed/part_003, `GuardrailDecision`).  The
source's reason strings interpolate live values; the embedding keeps fixed
labels since no caller inspects them. -/
inductive GuardrailDecision where
  | allow
  | deny (reason : String)
deriving DecidableEq, Repr

/-- Day-scoped guardrail ledger (src/unnamed/part_003, `GuardrailState`). -/
structure GuardrailState where
  dayKey : String
  dailyRealizedR : ℚ
  dailyRealizedPct : ℚ
  tradesToday : ℕ
  consecutiveSL : ℕ
  cooldownUntilMs : ℤ
deriving DecidableEq, Repr

/-- Pre-trade market-quality context (src/unnamed/part_003,
`PreTradeContext`). -/
structure PreTradeContext where
  nowMs : ℤ
  symbol : String
  stopPct : ℚ
  feeInR : ℚ
  spreadPct : Option ℚ
  topBookKrw : Option ℚ
  volume24hKrw : Option ℚ
  lastCandleTs : ℤ
  tfMinutes : ℤ
deriving DecidableEq, Repr

/-- Closed-trade summary fed back to the guardrail (src/unnamed/part_003,
`ClosedTrade`). -/
structure ClosedTrade where
  r : ℚ
  pnlPct : ℚ
  exitReason : ExitReason
deriving DecidableEq, Repr

/-- The environment-variable knobs read by `GuardrailEngine.check`
(src/unnamed/part_003 lines 67-77), with their `process.env` fallbacks in
`defaultGuardrailConfig`. -/
structure GuardrailConfig where
  dailyMaxLossR : ℚ
  dailyMaxLossPct : ℚ
  maxConsecutiveSL : ℕ
  cooldownMinutes : ℤ
  maxTradesPerDay : ℕ
  maxFeeInR : ℚ
  minStopPct : ℚ
  maxSpreadPct : ℚ
  minTopBookKrw : ℚ
  minVol24hKrw : ℚ
deriving DecidableEq, Repr

/-- The source's default values for unset environment variables. -/
def defaultGuardrailConfig : GuardrailConfig :=
  { dailyMaxLossR := 3, dailyMaxLossPct := 3/2, maxConsecutiveSL := 4, cooldownMinutes := 120,
    maxTradesPerDay := 10, maxFeeInR := 15/100, minStopPct := 1/2, maxSpreadPct := 8/100,
    minTopBookKrw := 20000000, minVol24hKrw := 30000000000 }

/-- `GuardrailEngine.createFreshState` (lines 39-48).  The wall-clock day key
is passed explicitly. -/
def createFreshState (today : String) : GuardrailState :=
  { dayKey := today, dailyRealizedR := 0, dailyRealizedPct := 0, tradesToday := 0,
    consecutiveSL := 0, cooldownUntilMs := 0 }

/-- `GuardrailEngine.ensureDayReset` (lines 57-62). -/
def ensureDayReset (today : String) (s : GuardrailState) : GuardrailState :=
  if s.dayKey ≠ today then createFreshState today else s

/-- `ctx.field != null && ctx.field > bound`, for the spread check. -/
def optGtB (o : Option ℚ) (b : ℚ) : Bool :=
  match o with
  | some v => decide (b < v)
  | none => false

/-- `ctx.field != null && ctx.field < bound`, for the depth/volume checks. -/
def optLtB (o : Option ℚ) (b : ℚ) : Bool :=
  match o with
  | some v => decide (v < b)
  | none => false

/-- `GuardrailEngine.check` (src/unnamed/part_003 lines 64-123): fixed
priority order of guards; firing the consecutive-stop-loss guard arms a
cooldown window.  Returns the decision and the updated ledger. -/
def check (cfg : GuardrailConfig) (today : String) (s0 : GuardrailState)
    (ctx : PreTradeContext) : GuardrailDecision × GuardrailState :=
  let s := ensureDayReset today s0
  if ctx.nowMs < s.cooldownUntilMs then (.deny "Cooldown until", s)
  else if s.dailyRealizedR ≤ -cfg.dailyMaxLossR then (.deny "Daily loss hit R", s)
  else if s.dailyRealizedPct ≤ -cfg.dailyMaxLossPct then (.deny "Daily loss hit pct", s)
  else if cfg.maxTradesPerDay ≤ s.tradesToday then (.deny "Max trades/day hit", s)
  else if ctx.tfMinutes * 2 * 60000 < ctx.nowMs - ctx.lastCandleTs then (.deny "Stale candles", s)
  else if cfg.maxFeeInR < ctx.feeInR then (.deny "FeeInR too high", s)
  else if ctx.stopPct < cfg.minStopPct then (.deny "Stop too tight", s)
  else if optGtB ctx.spreadPct cfg.maxSpreadPct = true then (.deny "Spread too wide", s)
  else if optLtB ctx.topBookKrw cfg.minTopBookKrw = true then (.deny "Shallow orderbook", s)
  else if optLtB ctx.volume24hKrw cfg.minVol24hKrw = true then (.deny "Low 24h volume", s)
  else if cfg.maxConsecutiveSL ≤ s.consecutiveSL then
    (.deny "Consecutive SL hit cooldown",
      { s with cooldownUntilMs := ctx.nowMs + cfg.cooldownMinutes * 60000 })
  else (.allow, s)

/-- `GuardrailEngine.onTradeClosed` (src/unnamed/part_003 lines 125-137). -/
def onTradeClosed (today : String) (s0 : GuardrailState) (trade : ClosedTrade) :
    GuardrailState :=
  let s := ensureDayReset today s0
  let s1 := { s with
    dailyRealizedR := s.dailyRealizedR + trade.r
    dailyRealizedPct := s.dailyRealizedPct + trade.pnlPct
    tradesToday := s.tradesToday + 1 }
  match trade.exitReason with
  | .STOP_LOSS => { s1 with consecutiveSL := s1.consecutiveSL + 1 }
  | .TAKE_PROFIT => { s1 with consecutiveSL := 0 }
  | _ => s1

/-- A market-quality context that passes every quality guard, at time `t`. -/
def benignCtx (t : ℤ) : PreTradeContext :=
  { nowMs := t, symbol := "KRW-BTC", stopPct := 1, feeInR := 1/10, spreadPct := none,
    topBookKrw := none, volume24hKrw := none, lastCandleTs := t, tfMinutes := 5 }

/-- A small stop-loss close: well inside the daily loss caps. -/
def slTrade : ClosedTrade := { r := -1/10, pnlPct := -1/10, exitReason := .STOP_LOSS }

/-- A take-profit close. -/
def tpTrade : ClosedTrade := { r := 2/10, pnlPct := 2/10, exitReason := .TAKE_PROFIT }

/-- The ledger after four consecutive stop-loss closes on day `"d"`. -/
def s4SL : GuardrailState :=
  onTradeClosed "d" (onTradeClosed "d" (onTradeClosed "d" (onTradeClosed "d"
    (createFreshState "d") slTrade) slTrade) slTrade) slTrade

/-- A fresh day-`"d"` ledger with an active cooldown window, for exercising
the cooldown guard. -/
def sCool : GuardrailState := { createFreshState "d" with cooldownUntilMs := 7200000 }

/-- Bootstrap confidence interval result (src/backtest/testBreakout.ts,
`BootstrapCI`). -/
structure BootstrapCI where
  p5 : ℚ
  p50 : ℚ
  p95 : ℚ
  safeForLive : Bool
deriving DecidableEq, Repr

/-- `bootstrapExpectancyCI` (src/backtest/testBreakout.ts lines 207-236).
`Math.random()`-driven index draws are abstracted into the explicit function
`draw` (iteration, sample slot ↦ index; the source always produces an index
below the sample size).  `Math.floor(iterations * 0.05)` etc. are the exact
natural-number divisions for these percentile factors.  The JavaScript
ascending comparator sort is the stable `insertionSort` under `≤`. -/
def bootstrapExpectancyCI (rMultiples : List ℚ) (iterations : ℕ) (draw : ℕ → ℕ → ℕ) :
    BootstrapCI :=
  if rMultiples.length < 10 then { p5 := 0, p50 := 0, p95 := 0, safeForLive := false }
  else
    let n := rMultiples.length
    let expectations := (List.range' 0 iterations).map (fun i =>
      (((List.range' 0 n).map (fun j => rMultiples.getD (draw i j) 0)).foldl (· + ·) 0) / (n : ℚ))
    let sorted := expectations.insertionSort (· ≤ ·)
    { p5 := sorted.getD (iterations * 5 / 100) 0
      p50 := sorted.getD (iterations * 50 / 100) 0
      p95 := sorted.getD (iterations * 95 / 100) 0
      safeForLive := decide (0 < sorted.getD (iterations * 5 / 100) 0) }

/-- Ten unit R-multiples, for the bootstrap witness. -/
def wR7 : List ℚ := List.replicate 10 1

/-- A deterministic in-range draw function for the bootstrap witness. -/
def wDraw7 : ℕ → ℕ → ℕ := fun i j => (i + j) % 10

/-- Non-negative cash, and any open position has non-negative quantity, entry
price, stop and target: the inductive invariant behind the cash-balance
claim. -/
def CashInv (s : SimState) : Prop :=
  0 ≤ s.cashKrw ∧ ∀ p, s.position = some p →
    0 ≤ p.quantity ∧ 0 ≤ p.entryPrice ∧
    (∀ t, p.stopLoss = some t → 0 ≤ t) ∧ (∀ t, p.targetPrice = some t → 0 ≤ t)

/-- An exit provider that always exits at a hugely negative price. -/
def cx10Exit : ExitProvider := fun _ _ =>
  { shouldExit := true, exitPrice := some (-1000000000), reasoning := none }

/-- Simulator config for the negative-cash counterexample: 5% fee, and the
exit provider consulted from the first holding bar on. -/
def cx10Cfg : BacktestConfig :=
  { symbol := "KRW-BTC", initialCapitalKrw := 1000000, riskPolicy := w3Risk,
    volatilityThresholds := wTh, feeRate := 5/100, beTriggerR := none, gateOnSignal := none,
    signalExitMinHoldBars := some 0, signalExitAfterBeOnly := some false }

/-- Environment for the negative-cash counterexample: 252 flat candles at 100,
a provider that always goes long, and `cx10Exit`. -/
def cx10Env : SimEnv :=
  { cfg := cx10Cfg, candles := List.replicate 252 (flatC 100 1000),
    decisionProvider := alwaysLong120, exitProvider := some cx10Exit, riskScale := 1,
    customSlTpFor := fun _ => none, plannerFeeRate := 5/100 }

namespace OrderPlanner

theorem positiveNum_some {v : Option ℚ} {y : ℚ} (h : positiveNum v = some y) :
    0 < y := by
  cases v with
  | none => simp [positiveNum] at h
  | some n =>
    simp only [positiveNum] at h
    split at h
    · cases h; assumption
    · cases h

theorem calcStopLoss_long_lt_entry {ds : Option ℚ} {e s : ℚ}
    (he : 0 < e) (hs : 0 < s) :
    calcStopLoss .LONG ds e s < e := by
  unfold calcStopLoss
  have hfb : e - e * s < e := by nlinarith
  cases hpos : positiveNum ds with
  | none => simpa using hfb
  | some raw =>
    simp only
    split
    · assumption
    · simpa using hfb

theorem checkReward_long_entry_lt_target {e t pur f : ℚ}
    (h : checkRewardAfterFees .LONG e t pur f = none)
    (he : 0 < e) (hf0 : 0 ≤ f) (hf1 : f < 1) : e < t := by
  simp only [checkRewardAfterFees] at h
  split at h
  · cases h
  · rename_i hlt
    push_neg at hlt
    have h1f : 0 < 1 - f := by linarith
    have hef : 0 < e * (1 + f) := by nlinarith
    have ht : 0 < t := by nlinarith
    nlinarith [mul_nonneg ht.le hf0, mul_nonneg he.le hf0]

theorem maxAllowed_caps (risk : RiskPolicy) (portfolio : PortfolioState)
    (marketData : MarketData) (d : ℚ) (hpos : 0 < maxAllowedOf risk portfolio marketData) :
    min d (maxAllowedOf risk portfolio marketData) ≤
      portfolio.totalEquityKrw * risk.maxPositionPctPerSymbol -
        symbolExposureBefore portfolio marketData ∧
    min d (maxAllowedOf risk portfolio marketData) ≤
      portfolio.totalEquityKrw * risk.maxTotalExposurePct - calcTotalExposure portfolio ∧
    min d (maxAllowedOf risk portfolio marketData) ≤ risk.maxNotionalKrw ∧
    min d (maxAllowedOf risk portfolio marketData) ≤ portfolio.cashKrw := by
  unfold maxAllowedOf at hpos ⊢
  set a := portfolio.totalEquityKrw * risk.maxPositionPctPerSymbol -
    symbolExposureBefore portfolio marketData with ha
  set b := portfolio.totalEquityKrw * risk.maxTotalExposurePct -
    calcTotalExposure portfolio with hb
  set c := risk.maxNotionalKrw with hc
  set e := portfolio.cashKrw with he
  have hM : min d (min (min (min (max 0 a) (max 0 b)) c) e) ≤
      min (min (min (max 0 a) (max 0 b)) c) e := min_le_right _ _
  have hA : min (min (min (max 0 a) (max 0 b)) c) e ≤ max 0 a :=
    le_trans (min_le_left _ _) (le_trans (min_le_left _ _) (min_le_left _ _))
  have hB : min (min (min (max 0 a) (max 0 b)) c) e ≤ max 0 b :=
    le_trans (min_le_left _ _) (le_trans (min_le_left _ _) (min_le_right _ _))
  have hC : min (min (min (max 0 a) (max 0 b)) c) e ≤ c :=
    le_trans (min_le_left _ _) (min_le_right _ _)
  have hamax : max 0 a = a := by
    rcases le_or_lt a 0 with h | h
    · exact absurd (lt_of_lt_of_le hpos (hA.trans (max_le le_rfl h))) (lt_irrefl 0)
    · exact max_eq_right h.le
  have hbmax : max 0 b = b := by
    rcases le_or_lt b 0 with h | h
    · exact absurd (lt_of_lt_of_le hpos (hB.trans (max_le le_rfl h))) (lt_irrefl 0)
    · exact max_eq_right h.le
  exact ⟨le_trans hM (hA.trans_eq hamax), le_trans hM (hB.trans_eq hbmax),
    le_trans hM hC, le_trans hM (min_le_right _ _)⟩

/-- Everything an accepted plan guarantees, read off from the control flow of
`planOrder`: the gate conditions that must have passed and the exact shape of
the returned plan. -/
theorem planOrder_accept_spec (risk : RiskPolicy) (feeRate : ℚ) (decision : AgentDecision)
    (marketData : MarketData) (portfolio : PortfolioState)
    (riskScale : ℚ) (customSlTp : Option SlTp) :
    (planOrder risk feeRate decision marketData portfolio riskScale customSlTp).shouldExecute = true →
    ∃ side entryPrice,
      decision.side = some side ∧
      positiveNum (some (decision.entryPrice.getD marketData.price)) = some entryPrice ∧
      0 < entryPrice ∧
      0 < perUnitRiskCalc side entryPrice (stopLossOf risk decision side entryPrice customSlTp) feeRate ∧
      0 < roundQty (finalNotionalOf risk feeRate decision marketData portfolio side entryPrice
        riskScale customSlTp / entryPrice) ∧
      checkRewardAfterFees side entryPrice (targetPriceOf risk decision side entryPrice customSlTp)
        (perUnitRiskCalc side entryPrice (stopLossOf risk decision side entryPrice customSlTp)
          feeRate) feeRate = none ∧
      0 < maxAllowedOf risk portfolio marketData ∧
      risk.minNotionalKrw ≤ finalNotionalOf risk feeRate decision marketData portfolio side
        entryPrice riskScale customSlTp ∧
      planOrder risk feeRate decision marketData portfolio riskScale customSlTp =
        { shouldExecute := true, symbol := marketData.symbol, side := some side,
          orderType := .MARKET,
          quantity := some (roundQty (finalNotionalOf risk feeRate decision marketData portfolio
            side entryPrice riskScale customSlTp / entryPrice)),
          entryPrice := some entryPrice,
          stopLoss := some (stopLossOf risk decision side entryPrice customSlTp),
          targetPrice := some (targetPriceOf risk decision side entryPrice customSlTp),
          notionalKrw := some (finalNotionalOf risk feeRate decision marketData portfolio side
            entryPrice riskScale customSlTp),
          reason := decision.reasoning,
          riskSummary := some
            { appliedRiskPct := appliedRiskPctCalc risk decision riskScale,
              riskAmountKrw := riskAmountCalc risk portfolio.totalEquityKrw
                decision.confidence riskScale,
              symbolExposureBefore := symbolExposureBefore portfolio marketData,
              symbolExposureAfter := some (symbolExposureBefore portfolio marketData +
                finalNotionalOf risk feeRate decision marketData portfolio side entryPrice
                  riskScale customSlTp),
              totalExposureBefore := calcTotalExposure portfolio,
              totalExposureAfter := some (calcTotalExposure portfolio +
                finalNotionalOf risk feeRate decision marketData portfolio side entryPrice
                  riskScale customSlTp),
              riskScale := some riskScale } } := by
  delta planOrder
  split
  · intro h; exact Bool.noConfusion h
  · split
    · intro h; exact Bool.noConfusion h
    · rename_i side hside
      split
      · intro h; exact Bool.noConfusion h
      · split
        · intro h; exact Bool.noConfusion h
        · rename_i entryPrice hentry
          split
          · intro h; exact Bool.noConfusion h
          · rename_i hpur
            split
            · intro h; exact Bool.noConfusion h
            · split
              · intro h; exact Bool.noConfusion h
              · rename_i hcap
                split
                · intro h; exact Bool.noConfusion h
                · rename_i hmin
                  split
                  · intro h; exact Bool.noConfusion h
                  · rename_i hqty
                    split
                    · intro h; exact Bool.noConfusion h
                    · rename_i hreward
                      intro _
                      push_neg at hpur hcap hmin hqty
                      exact ⟨side, entryPrice, hside, hentry, positiveNum_some hentry,
                        hpur, hqty, hreward, hcap, hmin, rfl⟩


/-- C1: for every plan accepted by `OrderPlanner.planOrder`
(`shouldExecute = true`), the planned notional is at most the remaining
per-symbol exposure headroom, the remaining total exposure headroom, the
policy maximum notional, and the available cash, and at least the policy
minimum notional. -/
theorem C1_accepted_notional_within_caps (risk : RiskPolicy) (feeRate : ℚ)
    (decision : AgentDecision) (marketData : MarketData) (portfolio : PortfolioState)
    (riskScale : ℚ) (customSlTp : Option SlTp)
    (h : (planOrder risk feeRate decision marketData portfolio riskScale customSlTp).shouldExecute = true) :
    ∃ n, (planOrder risk feeRate decision marketData portfolio riskScale customSlTp).notionalKrw = some n ∧
      n ≤ portfolio.totalEquityKrw * risk.maxPositionPctPerSymbol -
        symbolExposureBefore portfolio marketData ∧
      n ≤ portfolio.totalEquityKrw * risk.maxTotalExposurePct - calcTotalExposure portfolio ∧
      n ≤ risk.maxNotionalKrw ∧
      n ≤ portfolio.cashKrw ∧
      risk.minNotionalKrw ≤ n := by
  obtain ⟨side, e, hside, hentry, hE, hpur, hq, hrw, hcap, hmin, heq⟩ :=
    planOrder_accept_spec risk feeRate decision marketData portfolio riskScale customSlTp h
  have hcaps := maxAllowed_caps risk portfolio marketData
    (quantityByRiskCalc risk feeRate decision portfolio side e riskScale customSlTp * e) hcap
  refine ⟨finalNotionalOf risk feeRate decision marketData portfolio side e riskScale customSlTp,
    by rw [heq], ?_, ?_, ?_, ?_, hmin⟩
  · simpa only [finalNotionalOf] using hcaps.1
  · simpa only [finalNotionalOf] using hcaps.2.1
  · simpa only [finalNotionalOf] using hcaps.2.2.1
  · simpa only [finalNotionalOf] using hcaps.2.2.2

/-- Witness for C1 at a concrete accepted plan: policy `wRisk`, fee 0.05%,
proposal `wDec`, market `wMd`, portfolio `wPf`. -/
theorem C1_accepted_notional_within_caps_witness :
    ∃ n, (planOrder wRisk (5/10000) wDec wMd wPf 1 none).notionalKrw = some n ∧
      n ≤ wPf.totalEquityKrw * wRisk.maxPositionPctPerSymbol - symbolExposureBefore wPf wMd ∧
      n ≤ wPf.totalEquityKrw * wRisk.maxTotalExposurePct - calcTotalExposure wPf ∧
      n ≤ wRisk.maxNotionalKrw ∧
      n ≤ wPf.cashKrw ∧
      wRisk.minNotionalKrw ≤ n :=
  C1_accepted_notional_within_caps wRisk (5/10000) wDec wMd wPf 1 none
    (by norm_num [planOrder, confidenceFactor, clamp, positiveNum, riskAmountCalc,
      quantityByRiskCalc, maxAllowedOf, finalNotionalOf, stopLossOf, slRatioOf, tpRatioOf,
      targetPriceOf, perUnitRiskCalc, checkRewardAfterFees, calcStopLoss, symbolExposureBefore,
      calcSymbolExposure, calcTotalExposure, findPosition, roundQty, round_eq,
      wRisk, wDec, wMd, wPf, wPf5, cxRisk2, cxDec2, cxPf2])

/-- C2 (amended): for every accepted long plan, assuming the applied stop-loss
ratio is strictly positive and `0 ≤ feeRate < 1`, the plan satisfies
`stopLoss < entryPrice < targetPrice` strictly.  (The claim's weaker premise
`feeRate ≥ 0` is refuted by `C2_price_ordering_counterexample`: with
`feeRate = 2` a negative explicit target passes the reward check.) -/
theorem C2_long_plan_price_ordering (risk : RiskPolicy) (feeRate : ℚ)
    (decision : AgentDecision) (marketData : MarketData) (portfolio : PortfolioState)
    (riskScale : ℚ) (customSlTp : Option SlTp)
    (hacc : (planOrder risk feeRate decision marketData portfolio riskScale customSlTp).shouldExecute = true)
    (hlong : decision.side = some TradeSide.LONG)
    (hsl : 0 < slRatioOf risk customSlTp)
    (hf0 : 0 ≤ feeRate) (hf1 : feeRate < 1) :
    ∃ e st tp,
      (planOrder risk feeRate decision marketData portfolio riskScale customSlTp).entryPrice = some e ∧
      (planOrder risk feeRate decision marketData portfolio riskScale customSlTp).stopLoss = some st ∧
      (planOrder risk feeRate decision marketData portfolio riskScale customSlTp).targetPrice = some tp ∧
      st < e ∧ e < tp := by
  obtain ⟨side, e, hside, hentry, hE, hpur, hq, hrw, hcap, hmin, heq⟩ :=
    planOrder_accept_spec risk feeRate decision marketData portfolio riskScale customSlTp hacc
  rw [hside] at hlong
  have hsideL : side = TradeSide.LONG := Option.some.inj hlong
  subst hsideL
  refine ⟨e, stopLossOf risk decision .LONG e customSlTp,
    targetPriceOf risk decision .LONG e customSlTp,
    by rw [heq], by rw [heq], by rw [heq], ?_, ?_⟩
  · simpa only [stopLossOf] using calcStopLoss_long_lt_entry hE hsl
  · exact checkReward_long_entry_lt_target hrw hE hf0 hf1

/-- Witness for C2 at the concrete accepted plan of `C1`'s witness
(fee 0.05%, 2% fallback stop). -/
theorem C2_long_plan_price_ordering_witness :
    ∃ e st tp,
      (planOrder wRisk (5/10000) wDec wMd wPf 1 none).entryPrice = some e ∧
      (planOrder wRisk (5/10000) wDec wMd wPf 1 none).stopLoss = some st ∧
      (planOrder wRisk (5/10000) wDec wMd wPf 1 none).targetPrice = some tp ∧
      st < e ∧ e < tp :=
  C2_long_plan_price_ordering wRisk (5/10000) wDec wMd wPf 1 none
    (by norm_num [planOrder, confidenceFactor, clamp, positiveNum, riskAmountCalc,
      quantityByRiskCalc, maxAllowedOf, finalNotionalOf, stopLossOf, slRatioOf, tpRatioOf,
      targetPriceOf, perUnitRiskCalc, checkRewardAfterFees, calcStopLoss, symbolExposureBefore,
      calcSymbolExposure, calcTotalExposure, findPosition, roundQty, round_eq,
      wRisk, wDec, wMd, wPf, wPf5, cxRisk2, cxDec2, cxPf2]) (by norm_num [planOrder, confidenceFactor, clamp, positiveNum, riskAmountCalc,
      quantityByRiskCalc, maxAllowedOf, finalNotionalOf, stopLossOf, slRatioOf, tpRatioOf,
      targetPriceOf, perUnitRiskCalc, checkRewardAfterFees, calcStopLoss, symbolExposureBefore,
      calcSymbolExposure, calcTotalExposure, findPosition, roundQty, round_eq,
      wRisk, wDec, wMd, wPf, wPf5, cxRisk2, cxDec2, cxPf2])
    (by norm_num [planOrder, confidenceFactor, clamp, positiveNum, riskAmountCalc,
      quantityByRiskCalc, maxAllowedOf, finalNotionalOf, stopLossOf, slRatioOf, tpRatioOf,
      targetPriceOf, perUnitRiskCalc, checkRewardAfterFees, calcStopLoss, symbolExposureBefore,
      calcSymbolExposure, calcTotalExposure, findPosition, roundQty, round_eq,
      wRisk, wDec, wMd, wPf, wPf5, cxRisk2, cxDec2, cxPf2]) (by norm_num) (by norm_num)

/-- C2 counterexample to the claim as stated: with `feeRate = 2 ≥ 0`, a
positive stop-loss ratio and an accepted long plan, the explicit negative
target price `-400` is returned, so `entryPrice < targetPrice` fails. -/
theorem C2_price_ordering_counterexample :
    (planOrder cxRisk2 2 cxDec2 wMd cxPf2 1 none).shouldExecute = true ∧
    cxDec2.side = some TradeSide.LONG ∧
    0 < slRatioOf cxRisk2 none ∧
    (0:ℚ) ≤ 2 ∧
    (planOrder cxRisk2 2 cxDec2 wMd cxPf2 1 none).entryPrice = some 100 ∧
    (planOrder cxRisk2 2 cxDec2 wMd cxPf2 1 none).targetPrice = some (-400) ∧
    ¬((100:ℚ) < -400) := by
  refine ⟨?_, by norm_num [cxDec2], by norm_num [slRatioOf, cxRisk2], by norm_num, ?_, ?_, by norm_num⟩ <;>
    norm_num [planOrder, confidenceFactor, clamp, positiveNum, riskAmountCalc,
      quantityByRiskCalc, maxAllowedOf, finalNotionalOf, stopLossOf, slRatioOf, tpRatioOf,
      targetPriceOf, perUnitRiskCalc, checkRewardAfterFees, calcStopLoss, symbolExposureBefore,
      calcSymbolExposure, calcTotalExposure, findPosition, roundQty, round_eq,
      wRisk, wDec, wMd, wPf, wPf5, cxRisk2, cxDec2, cxPf2]

/-- C5: when the confidence check passes (`0 < confidence`, and within the
declared 0-100 confidence range), the risk amount used for sizing is
`max(equity x riskPerTradePct x (confidence/100) x riskScale, minNotionalKrw)`
(a floor, not a rejection), this is the amount reported by every accepted
plan's risk summary, and a small account whose raw risk amount is under the
minimum notional is still accepted. -/
theorem C5_risk_amount_floored_to_min_notional :
    (∀ (risk : RiskPolicy) (equity conf scale : ℚ), 0 < conf → conf ≤ 100 →
      riskAmountCalc risk equity conf scale =
        max (equity * (risk.riskPerTradePct * (conf / 100) * scale)) risk.minNotionalKrw) ∧
    (∀ (risk : RiskPolicy) (feeRate : ℚ) (decision : AgentDecision) (marketData : MarketData)
      (portfolio : PortfolioState) (riskScale : ℚ) (customSlTp : Option SlTp),
      (planOrder risk feeRate decision marketData portfolio riskScale customSlTp).shouldExecute = true →
      (planOrder risk feeRate decision marketData portfolio riskScale customSlTp).riskSummary.map
          RiskSummary.riskAmountKrw =
        some (riskAmountCalc risk portfolio.totalEquityKrw decision.confidence riskScale)) ∧
    ((planOrder wRisk (5/10000) wDec wMd wPf5 1 none).shouldExecute = true ∧
      (planOrder wRisk (5/10000) wDec wMd wPf5 1 none).riskSummary.map
          RiskSummary.riskAmountKrw = some wRisk.minNotionalKrw ∧
      wPf5.totalEquityKrw * (wRisk.riskPerTradePct * (wDec.confidence / 100) * 1) <
        wRisk.minNotionalKrw) := by
  refine ⟨?_, ?_, ⟨by norm_num [planOrder, confidenceFactor, clamp, positiveNum, riskAmountCalc,
      quantityByRiskCalc, maxAllowedOf, finalNotionalOf, stopLossOf, slRatioOf, tpRatioOf,
      targetPriceOf, perUnitRiskCalc, checkRewardAfterFees, calcStopLoss, symbolExposureBefore,
      calcSymbolExposure, calcTotalExposure, findPosition, roundQty, round_eq,
      wRisk, wDec, wMd, wPf, wPf5, cxRisk2, cxDec2, cxPf2], by norm_num [planOrder, confidenceFactor, clamp, positiveNum, riskAmountCalc,
      quantityByRiskCalc, maxAllowedOf, finalNotionalOf, stopLossOf, slRatioOf, tpRatioOf,
      targetPriceOf, perUnitRiskCalc, checkRewardAfterFees, calcStopLoss, symbolExposureBefore,
      calcSymbolExposure, calcTotalExposure, findPosition, roundQty, round_eq,
      wRisk, wDec, wMd, wPf, wPf5, cxRisk2, cxDec2, cxPf2], by norm_num [wPf5, wRisk, wDec]⟩⟩
  · intro risk equity conf scale h0 h100
    have hclamp : clamp (conf / 100) 0 1 = conf / 100 := by
      unfold clamp
      rw [max_eq_right (by positivity), min_eq_right ((div_le_one (by norm_num)).mpr h100)]
    unfold riskAmountCalc
    rw [hclamp]
  · intro risk feeRate decision marketData portfolio riskScale customSlTp hacc
    obtain ⟨side, e, hside, hentry, hE, hpur, hq, hrw, hcap, hmin, heq⟩ :=
      planOrder_accept_spec risk feeRate decision marketData portfolio riskScale customSlTp hacc
    rw [heq]
    rfl

/-- Witness for C5: the sizing formula evaluated at equity 1,000,000,
confidence 100, risk scale 1 under policy `wRisk`. -/
theorem C5_risk_amount_floored_to_min_notional_witness :
    riskAmountCalc wRisk 1000000 100 1 =
      max (1000000 * (wRisk.riskPerTradePct * ((100:ℚ) / 100) * 1)) wRisk.minNotionalKrw :=
  C5_risk_amount_floored_to_min_notional.1 wRisk 1000000 100 1 (by norm_num) (by norm_num)

end OrderPlanner

/-- Record update facts for `updateEquity`: it only touches the equity curve,
peak and drawdown. -/
theorem updateEquity_position (s : SimState) (price : ℚ) :
    (updateEquity s price).position = s.position := rfl

theorem updateEquity_cashKrw (s : SimState) (price : ℚ) :
    (updateEquity s price).cashKrw = s.cashKrw := rfl

theorem closePosition_position_none (cfg : BacktestConfig) (s : SimState) (i : ℕ)
    (e : ℚ) (r : ExitReason) (p : SimulatedPosition) (h : s.position = some p) :
    (closePosition cfg s i e r).position = none := by
  simp [closePosition, h]

theorem stepBar_flat (env : SimEnv) (s : SimState) (i : ℕ) (h : s.position = none) :
    stepBar env s i =
      flatStep env (updateEquity s ((env.candles.getD i dummyCandle).close)) i
        ((env.candles.getD i dummyCandle).close) (windowAt env.candles i) := by
  simp only [stepBar, updateEquity_position, h]

theorem stepBar_holding (env : SimEnv) (s : SimState) (i : ℕ) (pos : SimulatedPosition)
    (h : s.position = some pos) :
    stepBar env s i =
      holdingStep env (updateEquity s ((env.candles.getD i dummyCandle).close)) pos i
        ((env.candles.getD i dummyCandle).close) (windowAt env.candles i) := by
  simp only [stepBar, updateEquity_position, h]

/-- Surviving a holding bar preserves the position's identity fields; the stop
either stays or is ratcheted to `max stop entry`. -/
theorem holdingStep_survivor (env : SimEnv) (s : SimState) (pos : SimulatedPosition)
    (i : ℕ) (price : ℚ) (window : List Candle) (p' : SimulatedPosition)
    (h : (holdingStep env s pos i price window).position = some p') :
    p'.entryIndex = pos.entryIndex ∧ p'.entryPrice = pos.entryPrice ∧
    p'.quantity = pos.quantity ∧ p'.targetPrice = pos.targetPrice ∧
    (p'.stopLoss = pos.stopLoss ∨
      p'.stopLoss = some (max (pos.stopLoss.getD 0) pos.entryPrice)) := by
  simp only [holdingStep] at h
  split at h
  all_goals
    split at h
    · rw [closePosition_position_none _ _ _ _ _ _ rfl] at h; cases h
    · split at h
      · rw [closePosition_position_none _ _ _ _ _ _ rfl] at h; cases h
      · split at h
        · simp only [Option.some.injEq] at h
          subst h
          first
          | exact ⟨rfl, rfl, rfl, rfl, Or.inl rfl⟩
          | exact ⟨rfl, rfl, rfl, rfl, Or.inr rfl⟩
        · split at h
          · split at h
            · rw [closePosition_position_none _ _ _ _ _ _ rfl] at h; cases h
            · simp only [Option.some.injEq] at h
              subst h
              first
              | exact ⟨rfl, rfl, rfl, rfl, Or.inl rfl⟩
              | exact ⟨rfl, rfl, rfl, rfl, Or.inr rfl⟩
          · simp only [Option.some.injEq] at h
            subst h
            first
            | exact ⟨rfl, rfl, rfl, rfl, Or.inl rfl⟩
            | exact ⟨rfl, rfl, rfl, rfl, Or.inr rfl⟩

/-- A position present after a flat bar was opened at that bar. -/
theorem flatStep_opens_at_bar (env : SimEnv) (s : SimState) (i : ℕ) (price : ℚ)
    (window : List Candle) (hs : s.position = none) :
    ∀ q, (flatStep env s i price window).position = some q → q.entryIndex = i := by
  intro q hq
  simp only [flatStep, openPosition] at hq
  repeat' split at hq
  all_goals simp_all
  all_goals rw [← hq]

/-- C9: calling `closePosition` while no position is open is a guarded no-op:
the state, including cash and the trade log, is returned unchanged. -/
theorem C9_closePosition_flat_noop (cfg : BacktestConfig) (s : SimState) (index : ℕ)
    (exitPrice : ℚ) (reason : ExitReason) (h : s.position = none) :
    closePosition cfg s index exitPrice reason = s := by
  simp [closePosition, h]

/-- Witness for C9: closing on the fresh ledger (no open position) returns the
ledger unchanged. -/
theorem C9_closePosition_flat_noop_witness :
    closePosition wCfg (initialSimState wCfg) 0 100 ExitReason.SIGNAL = initialSimState wCfg :=
  C9_closePosition_flat_noop wCfg (initialSimState wCfg) 0 100 ExitReason.SIGNAL rfl

/-- Armedness is preserved by every run of bars that does not revisit the
position's entry bar index. -/
theorem runBars_armed_inv (env : SimEnv) (pIdx : ℕ) (pEntry : ℚ) (idxs : List ℕ) :
    pIdx ∉ idxs →
    ∀ s : SimState,
    (∀ q, s.position = some q → q.entryIndex = pIdx →
      q.entryPrice = pEntry ∧ q.stopLoss.isSome = true ∧ pEntry ≤ q.stopLoss.getD 0) →
    ∀ p', (runBars env s idxs).position = some p' → p'.entryIndex = pIdx →
      p'.entryPrice = pEntry ∧ p'.stopLoss.isSome = true ∧ pEntry ≤ p'.stopLoss.getD 0 := by
  induction idxs with
  | nil =>
    intro _ s hinv p' hp' hidx
    exact hinv p' (by simpa [runBars] using hp') hidx
  | cons i rest ih =>
    intro hnot s hinv p' hp' hidx
    have hrest : pIdx ∉ rest := fun hmem => hnot (List.mem_cons_of_mem _ hmem)
    have hne : pIdx ≠ i := fun hmem => hnot (hmem ▸ List.mem_cons_self _ _)
    have hstep : runBars env s (i :: rest) = runBars env (stepBar env s i) rest := rfl
    rw [hstep] at hp'
    refine ih hrest (stepBar env s i) ?_ p' hp' hidx
    intro q hq hqidx
    cases hsp : s.position with
    | none =>
      rw [stepBar_flat env s i hsp] at hq
      have : q.entryIndex = i :=
        flatStep_opens_at_bar env _ i _ _ (by simpa [updateEquity_position] using hsp) q hq
      exact absurd (hqidx ▸ this) hne
    | some r =>
      rw [stepBar_holding env s i r hsp] at hq
      obtain ⟨hEi, hEp, _, _, hSL⟩ := holdingStep_survivor env _ r i _ _ q hq
      have hr := hinv r hsp (hEi ▸ hqidx)
      rcases hSL with hkeep | hratchet
      · exact ⟨hEp.trans hr.1, by rw [hkeep]; exact hr.2.1, by rw [hkeep]; exact hr.2.2⟩
      · refine ⟨hEp.trans hr.1, by rw [hratchet]; rfl, ?_⟩
        rw [hratchet]
        have : pEntry ≤ r.entryPrice := (hinv r hsp (hEi ▸ hqidx)).1 ▸ le_rfl
        simpa [Option.getD] using le_trans this (le_max_right _ _)

/-- C6: break-even arming is monotonic and irreversible.  If the held
position's stop is at or above its entry price, then after any further bars
that do not revisit the entry bar, the same position (identified by its entry
bar index) still has a stop at or above the unchanged entry price. -/
theorem C6_break_even_monotonic (env : SimEnv) (idxs : List ℕ) (s : SimState)
    (p : SimulatedPosition) (st : ℚ)
    (hpos : s.position = some p) (hsl : p.stopLoss = some st) (harm : p.entryPrice ≤ st)
    (hidx : p.entryIndex ∉ idxs) :
    ∀ p', (runBars env s idxs).position = some p' → p'.entryIndex = p.entryIndex →
      p'.entryPrice = p.entryPrice ∧ p'.stopLoss.isSome = true ∧
      p.entryPrice ≤ p'.stopLoss.getD 0 := by
  intro p' hp' hid
  refine runBars_armed_inv env p.entryIndex p.entryPrice idxs hidx s ?_ p' hp' hid
  intro q hq _
  rw [hq] at hpos
  cases hpos
  exact ⟨rfl, by rw [hsl]; rfl, by rw [hsl]; exact harm⟩

/-- Witness for C6: the armed position `wPos6` survives bar 251 of `wEnv6`
with its stop still at the entry price. -/
theorem C6_break_even_monotonic_witness :
    wPos6.entryPrice = wPos6.entryPrice ∧ wPos6.stopLoss.isSome = true ∧
      wPos6.entryPrice ≤ wPos6.stopLoss.getD 0 :=
  C6_break_even_monotonic wEnv6 [251] wS6 wPos6 100 rfl rfl (by norm_num [wPos6])
    (by norm_num [wPos6]) wPos6
    (by norm_num [runBars, stepBar, updateEquity, holdingStep, wEnv6, wS6, wPos6, wCfg,
      truthyQ, windowAt, flatC, initialSimState,
      List.getD_eq_getElem?_getD, List.getElem?_replicate]) rfl

theorem take_replicate {α : Type} (n m : ℕ) (a : α) :
    (List.replicate m a).take n = List.replicate (min n m) a := by
  induction n generalizing m with
  | zero => simp
  | succ k ih =>
    cases m with
    | zero => simp
    | succ l => simp [List.replicate_succ, List.take_succ_cons, ih, Nat.succ_min_succ]

theorem drop_replicate {α : Type} (n m : ℕ) (a : α) :
    (List.replicate m a).drop n = List.replicate (m - n) a := by
  induction n generalizing m with
  | zero => simp
  | succ k ih =>
    cases m with
    | zero => simp
    | succ l => simp [List.replicate_succ, ih]

theorem foldl_volume_replicate (n : ℕ) (b : ℚ) (c : Candle) :
    (List.replicate n c).foldl (fun s x => s + x.volume) b = b + n * c.volume := by
  induction n generalizing b with
  | zero => simp
  | succ k ih => simp [List.replicate_succ, ih]; ring

/-- With a constant-`none` custom stop/target source, the flat-bar plan does
not depend on the bar's ATR. -/
theorem flatBarPlan_const_none (env : SimEnv) (s : SimState) (i : ℕ) (price : ℚ)
    (window : List Candle) (h : env.customSlTpFor = fun _ => none) :
    flatBarPlan env s i price window =
      OrderPlanner.planOrder env.cfg.riskPolicy env.plannerFeeRate
        (env.decisionProvider window
          (detectVolatilitySignal window env.cfg.volatilityThresholds) none)
        { symbol := env.cfg.symbol, price := price,
          timestamp := (env.candles.getD i dummyCandle).timestamp, candles := window }
        (buildPortfolio env.cfg s price) env.riskScale none := by
  unfold flatBarPlan
  rw [h]

/-- C3 (amended): on a flat bar whose decision is a trade and whose plan is
accepted with complete fields, the simulator debits cash by notional plus
entry fee and opens the position at that bar, provided that total cost does
not exceed cash (`C3_open_guard_counterexample` shows the opening is
silently skipped otherwise); and while flat, a `runRange` loop iteration is
exactly this flat-bar body. -/
theorem C3_accepted_plan_opens_and_debits :
    (∀ (env : SimEnv) (s : SimState) (i : ℕ) (price : ℚ) (window : List Candle)
      (q e : ℚ) (sd : TradeSide),
      s.position = none →
      (env.cfg.gateOnSignal.getD false = false ∨
        detectVolatilitySignal window env.cfg.volatilityThresholds ≠ none) →
      (env.decisionProvider window (detectVolatilitySignal window env.cfg.volatilityThresholds)
        none).shouldTrade = true →
      (flatBarPlan env s i price window).shouldExecute = true →
      (flatBarPlan env s i price window).quantity = some q → q ≠ 0 →
      (flatBarPlan env s i price window).side = some sd →
      (flatBarPlan env s i price window).entryPrice = some e → e ≠ 0 →
      q * e + q * e * env.cfg.feeRate ≤ s.cashKrw →
      (flatStep env s i price window).cashKrw = s.cashKrw - (q * e + q * e * env.cfg.feeRate) ∧
      (flatStep env s i price window).position = some
        { symbol := env.cfg.symbol, side := sd, entryPrice := e, quantity := q, timestamp := 0,
          unrealizedPnl := 0, entryIndex := i,
          stopLoss := (flatBarPlan env s i price window).stopLoss,
          targetPrice := (flatBarPlan env s i price window).targetPrice,
          initialStopLoss := (flatBarPlan env s i price window).stopLoss }) ∧
    (∀ (env : SimEnv) (s : SimState) (i : ℕ), s.position = none →
      stepBar env s i =
        flatStep env (updateEquity s ((env.candles.getD i dummyCandle).close)) i
          ((env.candles.getD i dummyCandle).close) (windowAt env.candles i)) := by
  constructor
  · intro env s i price window q e sd hs hgate hdec hplan hq hq0 hsd he he0 hcash
    cases hsig : detectVolatilitySignal window env.cfg.volatilityThresholds with
    | none =>
      have hgg : env.cfg.gateOnSignal.getD false = false := by
        rcases hgate with h1 | h2
        · exact h1
        · exact absurd hsig h2
      rw [hsig] at hdec
      simp only [flatStep, hsig]
      rw [if_neg (by simp [hgg])]
      rw [if_neg (by simp [hdec])]
      rw [if_pos ⟨hplan, by rw [hq]; simp [truthyQ, hq0],
        by rw [hsd]; simp, by rw [he]; simp [truthyQ, he0]⟩]
      simp only [openPosition, hq, hsd, he]
      rw [if_neg (by simp [hq0, he0])]
      rw [if_neg (not_lt.mpr hcash)]
      exact ⟨rfl, rfl⟩
    | some sig =>
      rw [hsig] at hdec
      simp only [flatStep, hsig]
      rw [if_neg (by simp)]
      rw [if_neg (by simp [hdec])]
      rw [if_pos ⟨hplan, by rw [hq]; simp [truthyQ, hq0],
        by rw [hsd]; simp, by rw [he]; simp [truthyQ, he0]⟩]
      simp only [openPosition, hq, hsd, he]
      rw [if_neg (by simp [hq0, he0])]
      rw [if_neg (not_lt.mpr hcash)]
      exact ⟨rfl, rfl⟩
  · exact fun env s i h => stepBar_flat env s i h

/-- Witness for C3: at bar 250 of `w3Env` the plan (quantity 400 at entry
100, 5% fee) is accepted, total cost 42,000 fits in cash 1,000,000, cash is
debited and the position opened. -/
theorem C3_accepted_plan_opens_and_debits_witness :
    (flatStep w3Env w3S 250 100 (windowAt w3Env.candles 250)).cashKrw =
      w3S.cashKrw - (400 * 100 + 400 * 100 * w3Env.cfg.feeRate) ∧
    (flatStep w3Env w3S 250 100 (windowAt w3Env.candles 250)).position = some
      { symbol := w3Env.cfg.symbol, side := TradeSide.LONG, entryPrice := 100, quantity := 400,
        timestamp := 0, unrealizedPnl := 0, entryIndex := 250,
        stopLoss := (flatBarPlan w3Env w3S 250 100 (windowAt w3Env.candles 250)).stopLoss,
        targetPrice := (flatBarPlan w3Env w3S 250 100 (windowAt w3Env.candles 250)).targetPrice,
        initialStopLoss := (flatBarPlan w3Env w3S 250 100 (windowAt w3Env.candles 250)).stopLoss } := by
  have hplan : flatBarPlan w3Env w3S 250 100 (windowAt w3Env.candles 250) =
      { shouldExecute := true, symbol := "KRW-BTC", side := some TradeSide.LONG,
        orderType := .MARKET, quantity := some 400, entryPrice := some 100,
        stopLoss := some 98, targetPrice := some 120, notionalKrw := some 40000,
        reason := "go",
        riskSummary := some
          { appliedRiskPct := 1/100, riskAmountKrw := 10000, symbolExposureBefore := 0,
            symbolExposureAfter := some 40000, totalExposureBefore := 0,
            totalExposureAfter := some 40000, riskScale := some 1 } } := by
    norm_num [flatBarPlan_const_none, windowAt, detectVolatilitySignal, detectVolatilitySignalAt,
      pickBestVolatilitySignal, buildAtrSpikeCandidate, buildPriceSurgeCandidate,
      buildVolumeSpikeCandidate, buildDirection3, calcAtrWilderWindow, trueRange,
      buildPortfolio, initialSimState, updateEquity,
      OrderPlanner.planOrder, OrderPlanner.confidenceFactor, OrderPlanner.clamp,
      OrderPlanner.appliedRiskPctCalc,
      OrderPlanner.positiveNum, OrderPlanner.riskAmountCalc, OrderPlanner.quantityByRiskCalc,
      OrderPlanner.maxAllowedOf, OrderPlanner.finalNotionalOf, OrderPlanner.stopLossOf,
      OrderPlanner.slRatioOf, OrderPlanner.tpRatioOf, OrderPlanner.targetPriceOf,
      OrderPlanner.perUnitRiskCalc, OrderPlanner.checkRewardAfterFees, OrderPlanner.calcStopLoss,
      OrderPlanner.symbolExposureBefore, OrderPlanner.calcSymbolExposure,
      OrderPlanner.calcTotalExposure, OrderPlanner.findPosition, OrderPlanner.roundQty, round_eq,
      w3Env, w3Cfg, w3Risk, w3S, alwaysLong120, wTh, flatC, dummyCandle,
      take_replicate, drop_replicate, foldl_volume_replicate,
      List.getD_eq_getElem?_getD, List.getElem?_replicate, List.range', List.insertionSort,
      List.orderedInsert, List.head?, abs_of_pos, abs_of_nonneg, abs_of_nonpos,
      decide_eq_true_eq, Option.some_ne_none]
  have hh := C3_accepted_plan_opens_and_debits.1 w3Env w3S 250 100
    (windowAt w3Env.candles 250) 400 100 TradeSide.LONG rfl (Or.inl rfl) rfl
    (by rw [hplan]) (by rw [hplan]) (by norm_num) (by rw [hplan]) (by rw [hplan]) (by norm_num)
    (by norm_num [w3S, updateEquity, initialSimState, w3Cfg, w3Env])
  exact hh

/-- C3 counterexample to the claim as stated: at bar 250 of `cx3Env` the plan
is accepted (quantity 200 at entry 100, notional 20,000 = all cash), but the
5% entry fee makes total cost 21,000 exceed cash, so `openPosition` silently
skips: `executed` is counted, yet no position is opened, no trade is ever
recorded, and cash is never debited. -/
theorem C3_open_guard_counterexample :
    (flatBarPlan cx3Env cx3S 250 100 (windowAt cx3Env.candles 250)).shouldExecute = true ∧
    (flatBarPlan cx3Env cx3S 250 100 (windowAt cx3Env.candles 250)).quantity = some 200 ∧
    (flatBarPlan cx3Env cx3S 250 100 (windowAt cx3Env.candles 250)).side = some TradeSide.LONG ∧
    (flatBarPlan cx3Env cx3S 250 100 (windowAt cx3Env.candles 250)).entryPrice = some 100 ∧
    (runRangeState cx3Env 0 251).debugStats.executed = 1 ∧
    (runRangeState cx3Env 0 251).trades = [] ∧
    (runRangeState cx3Env 0 251).position = none ∧
    (runRangeState cx3Env 0 251).cashKrw = 20000 := by
  norm_num [runRangeState, runBars, stepBar, updateEquity, flatStep, flatBarPlan_const_none,
    openPosition, closePosition, buildPortfolio, initialSimState, windowAt, truthyQ,
    detectVolatilitySignal, detectVolatilitySignalAt, pickBestVolatilitySignal,
    buildAtrSpikeCandidate, buildPriceSurgeCandidate, buildVolumeSpikeCandidate,
    buildDirection3, calcAtrWilderWindow, trueRange,
    OrderPlanner.planOrder, OrderPlanner.confidenceFactor, OrderPlanner.clamp,
    OrderPlanner.appliedRiskPctCalc,
    OrderPlanner.positiveNum, OrderPlanner.riskAmountCalc, OrderPlanner.quantityByRiskCalc,
    OrderPlanner.maxAllowedOf, OrderPlanner.finalNotionalOf, OrderPlanner.stopLossOf,
    OrderPlanner.slRatioOf, OrderPlanner.tpRatioOf, OrderPlanner.targetPriceOf,
    OrderPlanner.perUnitRiskCalc, OrderPlanner.checkRewardAfterFees, OrderPlanner.calcStopLoss,
    OrderPlanner.symbolExposureBefore, OrderPlanner.calcSymbolExposure,
    OrderPlanner.calcTotalExposure, OrderPlanner.findPosition, OrderPlanner.roundQty, round_eq,
    cx3Env, cx3Cfg, cx3Risk, cx3S, alwaysLong120, wTh, flatC, dummyCandle,
    take_replicate, drop_replicate, foldl_volume_replicate,
    List.getD_eq_getElem?_getD, List.getElem?_replicate, List.range', List.insertionSort,
    List.orderedInsert, List.head?, abs_of_pos, abs_of_nonneg, abs_of_nonpos,
    decide_eq_true_eq, Option.some_ne_none]

/-- C4 (amended): once the consecutive-stop-loss counter has reached the
configured maximum on the current day, `check` denies every call — the armed
cooldown's elapsing does not restore `allow`, because `check` never resets
the counter; an active cooldown window also denies; a STOP_LOSS close
increments the counter and a TAKE_PROFIT close resets it to 0. -/
theorem C4_consecutive_sl_cooldown (cfg : GuardrailConfig) (today : String)
    (s : GuardrailState) (ctx : PreTradeContext) (t : ClosedTrade) :
    (s.dayKey = today → cfg.maxConsecutiveSL ≤ s.consecutiveSL →
      (check cfg today s ctx).1 ≠ .allow) ∧
    (s.dayKey = today → ctx.nowMs < s.cooldownUntilMs →
      (check cfg today s ctx).1 = .deny "Cooldown until") ∧
    (s.dayKey = today → t.exitReason = .STOP_LOSS →
      (onTradeClosed today s t).consecutiveSL = s.consecutiveSL + 1) ∧
    (t.exitReason = .TAKE_PROFIT → (onTradeClosed today s t).consecutiveSL = 0) := by
  have hres : s.dayKey = today → ensureDayReset today s = s := by
    intro hday
    simp [ensureDayReset, hday]
  refine ⟨?_, ?_, ?_, ?_⟩
  · intro hday hmax
    simp only [check, hres hday]
    repeat' split
    all_goals simp_all
  · intro hday hcool
    simp only [check, hres hday]
    rw [if_pos hcool]
  · intro hday hsl
    simp [onTradeClosed, hres hday, hsl]
  · intro htp
    simp [onTradeClosed, htp]

theorem C4_consecutive_sl_cooldown_witness :
    (check defaultGuardrailConfig "d" s4SL (benignCtx 0)).1 ≠ .allow ∧
    (check defaultGuardrailConfig "d" sCool (benignCtx 100)).1 = .deny "Cooldown until" ∧
    (onTradeClosed "d" s4SL slTrade).consecutiveSL = s4SL.consecutiveSL + 1 ∧
    (onTradeClosed "d" s4SL tpTrade).consecutiveSL = 0 := by
  have h1 : s4SL.dayKey = "d" := by
    norm_num [s4SL, onTradeClosed, ensureDayReset, createFreshState, slTrade]
  have h2 : defaultGuardrailConfig.maxConsecutiveSL ≤ s4SL.consecutiveSL := by
    norm_num [s4SL, onTradeClosed, ensureDayReset, createFreshState, slTrade,
      defaultGuardrailConfig]
  have h3 : sCool.dayKey = "d" := by norm_num [sCool, createFreshState]
  have h4 : (benignCtx 100).nowMs < sCool.cooldownUntilMs := by
    norm_num [benignCtx, sCool, createFreshState]
  exact ⟨(C4_consecutive_sl_cooldown defaultGuardrailConfig "d" s4SL (benignCtx 0) slTrade).1
      h1 h2,
    (C4_consecutive_sl_cooldown defaultGuardrailConfig "d" sCool (benignCtx 100) slTrade).2.1
      h3 h4,
    (C4_consecutive_sl_cooldown defaultGuardrailConfig "d" s4SL (benignCtx 0) slTrade).2.2.1
      h1 rfl,
    (C4_consecutive_sl_cooldown defaultGuardrailConfig "d" s4SL (benignCtx 0) tpTrade).2.2.2
      rfl⟩

/-- C4 counterexample to "after which check can allow again": four small
stop-loss closes on day `"d"` arm the cooldown at the next check (until
0 + 120min = 7 200 000 ms); at 7 200 001 ms the window has elapsed, yet the
same benign context is still denied, because the consecutive-stop-loss
counter was never reset.  A fresh ledger shows the same context is otherwise
allowed. -/
theorem C4_cooldown_elapse_counterexample :
    (check defaultGuardrailConfig "d" s4SL (benignCtx 0)).1 ≠ .allow ∧
    (check defaultGuardrailConfig "d" s4SL (benignCtx 0)).2.cooldownUntilMs = 7200000 ∧
    (check defaultGuardrailConfig "d" s4SL (benignCtx 0)).2.cooldownUntilMs ≤
      (benignCtx 7200001).nowMs ∧
    (check defaultGuardrailConfig "d"
      (check defaultGuardrailConfig "d" s4SL (benignCtx 0)).2 (benignCtx 7200001)).1 ≠ .allow ∧
    (check defaultGuardrailConfig "d" (createFreshState "d") (benignCtx 0)).1 = .allow := by
  norm_num [check, ensureDayReset, createFreshState, onTradeClosed, s4SL, slTrade, benignCtx,
    defaultGuardrailConfig, optGtB, optLtB]
  decide

/-- C7: for every R-multiple list, iteration count > 0 and draw function,
`bootstrapExpectancyCI` returns percentiles with p5 ≤ p50 ≤ p95 (the sorted
resampled means are read at increasing indices), sets `safeForLive` exactly
when p5 > 0, and for fewer than 10 R-multiples returns the zero sentinel. -/
theorem C7_bootstrap_ci_ordering (rs : List ℚ) (it : ℕ) (draw : ℕ → ℕ → ℕ)
    (hit : 0 < it) :
    (bootstrapExpectancyCI rs it draw).p5 ≤ (bootstrapExpectancyCI rs it draw).p50 ∧
    (bootstrapExpectancyCI rs it draw).p50 ≤ (bootstrapExpectancyCI rs it draw).p95 ∧
    ((bootstrapExpectancyCI rs it draw).safeForLive = true ↔
      0 < (bootstrapExpectancyCI rs it draw).p5) ∧
    (rs.length < 10 → bootstrapExpectancyCI rs it draw =
      { p5 := 0, p50 := 0, p95 := 0, safeForLive := false }) := by
  by_cases hlen : rs.length < 10
  · simp only [bootstrapExpectancyCI, if_pos hlen]
    exact ⟨le_refl _, le_refl _, by simp, fun _ => trivial⟩
  · simp only [bootstrapExpectancyCI, if_neg hlen]
    set S := (((List.range' 0 it).map (fun i =>
      (((List.range' 0 rs.length).map (fun j => rs.getD (draw i j) 0)).foldl (· + ·) 0)
        / (rs.length : ℚ))).insertionSort (· ≤ ·)) with hS
    have hlenS : S.length = it := by
      rw [hS, List.length_insertionSort, List.length_map, List.length_range']
    have hsorted : S.Sorted (· ≤ ·) := List.sorted_insertionSort _ _
    have key : ∀ i j, i ≤ j → j < S.length → S.getD i 0 ≤ S.getD j 0 := by
      intro i j hij hj
      rcases eq_or_lt_of_le hij with rfl | hlt
      · exact le_refl _
      · rw [List.getD_eq_getElem?_getD, List.getD_eq_getElem?_getD,
          List.getElem?_eq_getElem hj, List.getElem?_eq_getElem (lt_of_lt_of_le hlt hj.le)]
        exact hsorted.rel_get_of_lt hlt
    have h5 : it * 5 / 100 ≤ it * 50 / 100 := by omega
    have h50 : it * 50 / 100 ≤ it * 95 / 100 := by omega
    have h95 : it * 95 / 100 < it := by omega
    refine ⟨key _ _ h5 ?_, key _ _ h50 ?_, by simp, fun h => absurd h hlen⟩
    · rw [hlenS]; omega
    · rw [hlenS]; omega

theorem C7_bootstrap_ci_ordering_witness :
    (bootstrapExpectancyCI wR7 20 wDraw7).p5 ≤ (bootstrapExpectancyCI wR7 20 wDraw7).p50 ∧
    (bootstrapExpectancyCI wR7 20 wDraw7).p50 ≤ (bootstrapExpectancyCI wR7 20 wDraw7).p95 ∧
    ((bootstrapExpectancyCI wR7 20 wDraw7).safeForLive = true ↔
      0 < (bootstrapExpectancyCI wR7 20 wDraw7).p5) ∧
    (wR7.length < 10 → bootstrapExpectancyCI wR7 20 wDraw7 =
      { p5 := 0, p50 := 0, p95 := 0, safeForLive := false }) :=
  C7_bootstrap_ci_ordering wR7 20 wDraw7 (by norm_num)

theorem getD_zero_nonneg (o : Option ℚ) (h : ∀ t, o = some t → 0 ≤ t) : 0 ≤ o.getD 0 := by
  cases o with
  | none => simp
  | some v => simpa using h v rfl

theorem getD_nonneg (o : Option ℚ) (d : ℚ) (hd : 0 ≤ d) (h : ∀ t, o = some t → 0 ≤ t) :
    0 ≤ o.getD d := by
  cases o with
  | none => simpa using hd
  | some v => simpa using h v rfl

theorem calcStopLoss_nonneg (side : TradeSide) (ds : Option ℚ) (e sl : ℚ) (he : 0 < e)
    (h1 : sl ≤ 1) (h2 : -1 ≤ sl) : 0 ≤ OrderPlanner.calcStopLoss side ds e sl := by
  unfold OrderPlanner.calcStopLoss
  cases hds : OrderPlanner.positiveNum ds with
  | none =>
    cases side <;> dsimp only <;> nlinarith
  | some raw =>
    have hraw : 0 < raw := OrderPlanner.positiveNum_some hds
    cases side <;> dsimp only <;> split <;> nlinarith

theorem targetPriceOf_nonneg (risk : RiskPolicy) (decision : AgentDecision) (side : TradeSide)
    (e : ℚ) (customSlTp : Option SlTp) (he : 0 < e)
    (hT : ∀ x, decision.targetPrice = some x → 0 ≤ x)
    (htp1 : OrderPlanner.tpRatioOf risk customSlTp ≤ 1)
    (htp2 : -1 ≤ OrderPlanner.tpRatioOf risk customSlTp) :
    0 ≤ OrderPlanner.targetPriceOf risk decision side e customSlTp := by
  unfold OrderPlanner.targetPriceOf
  cases ht : decision.targetPrice with
  | some t => simpa using hT t ht
  | none => cases side <;> simp only [Option.getD_none] <;> nlinarith

theorem planOrder_accept_nonneg (risk : RiskPolicy) (feeRate : ℚ) (decision : AgentDecision)
    (marketData : MarketData) (portfolio : PortfolioState) (riskScale : ℚ)
    (customSlTp : Option SlTp)
    (hT : ∀ x, decision.targetPrice = some x → 0 ≤ x)
    (hsl1 : OrderPlanner.slRatioOf risk customSlTp ≤ 1)
    (hsl2 : -1 ≤ OrderPlanner.slRatioOf risk customSlTp)
    (htp1 : OrderPlanner.tpRatioOf risk customSlTp ≤ 1)
    (htp2 : -1 ≤ OrderPlanner.tpRatioOf risk customSlTp)
    (h : (OrderPlanner.planOrder risk feeRate decision marketData portfolio riskScale
      customSlTp).shouldExecute = true) :
    (∀ q, (OrderPlanner.planOrder risk feeRate decision marketData portfolio riskScale
        customSlTp).quantity = some q → 0 ≤ q) ∧
    (∀ e, (OrderPlanner.planOrder risk feeRate decision marketData portfolio riskScale
        customSlTp).entryPrice = some e → 0 ≤ e) ∧
    (∀ t, (OrderPlanner.planOrder risk feeRate decision marketData portfolio riskScale
        customSlTp).stopLoss = some t → 0 ≤ t) ∧
    (∀ t, (OrderPlanner.planOrder risk feeRate decision marketData portfolio riskScale
        customSlTp).targetPrice = some t → 0 ≤ t) := by
  obtain ⟨side, e, hside, hentry, hE, hpur, hq, hrw, hcap, hmin, heq⟩ :=
    OrderPlanner.planOrder_accept_spec risk feeRate decision marketData portfolio riskScale
      customSlTp h
  rw [heq]
  refine ⟨?_, ?_, ?_, ?_⟩ <;> intro x hx <;> simp only [Option.some.injEq] at hx <;>
    rw [← hx]
  · exact le_of_lt hq
  · exact le_of_lt hE
  · exact calcStopLoss_nonneg side decision.stopLoss e _ hE hsl1 hsl2
  · exact targetPriceOf_nonneg risk decision side e customSlTp hE hT htp1 htp2

theorem flatBarPlan_nonneg (env : SimEnv) (s : SimState) (i : ℕ) (price : ℚ)
    (window : List Candle)
    (hT : ∀ w sig p x, (env.decisionProvider w sig p).targetPrice = some x → 0 ≤ x)
    (hR : ∀ r, -1 ≤ OrderPlanner.slRatioOf env.cfg.riskPolicy (env.customSlTpFor r) ∧
      OrderPlanner.slRatioOf env.cfg.riskPolicy (env.customSlTpFor r) ≤ 1 ∧
      -1 ≤ OrderPlanner.tpRatioOf env.cfg.riskPolicy (env.customSlTpFor r) ∧
      OrderPlanner.tpRatioOf env.cfg.riskPolicy (env.customSlTpFor r) ≤ 1)
    (h : (flatBarPlan env s i price window).shouldExecute = true) :
    (∀ q, (flatBarPlan env s i price window).quantity = some q → 0 ≤ q) ∧
    (∀ e, (flatBarPlan env s i price window).entryPrice = some e → 0 ≤ e) ∧
    (∀ t, (flatBarPlan env s i price window).stopLoss = some t → 0 ≤ t) ∧
    (∀ t, (flatBarPlan env s i price window).targetPrice = some t → 0 ≤ t) := by
  unfold flatBarPlan at h ⊢
  have hR' := hR (if 0 < price then calculateATR window 14 / price else 3/100)
  exact planOrder_accept_nonneg _ _ _ _ _ _ _ (fun x hx => hT _ _ _ x hx)
    hR'.2.1 hR'.1 hR'.2.2.2 hR'.2.2.1 h

theorem openPosition_inv (cfg : BacktestConfig) (s : SimState) (i : ℕ) (plan : OrderPlan)
    (hinv : CashInv s)
    (hq : ∀ q, plan.quantity = some q → 0 ≤ q)
    (he : ∀ e, plan.entryPrice = some e → 0 ≤ e)
    (hs : ∀ t, plan.stopLoss = some t → 0 ≤ t)
    (ht : ∀ t, plan.targetPrice = some t → 0 ≤ t) :
    CashInv (openPosition cfg s i plan) := by
  unfold openPosition
  split
  · rename_i q sd e hq' hsd' he'
    split
    · exact hinv
    · dsimp only
      split
      · exact hinv
      · rename_i hcost
        push_neg at hcost
        refine ⟨by simpa using sub_nonneg.mpr hcost, ?_⟩
        intro p hp
        simp only [Option.some.injEq] at hp
        rw [← hp]
        exact ⟨hq q hq', he e he', fun t htl => hs t (by simpa using htl),
          fun t htl => ht t (by simpa using htl)⟩
  · exact hinv

theorem closePosition_inv (cfg : BacktestConfig) (s : SimState) (i : ℕ) (x : ℚ)
    (reason : ExitReason) (hinv : CashInv s) (hx : 0 ≤ x) (hf1 : cfg.feeRate ≤ 1) :
    CashInv (closePosition cfg s i x reason) := by
  unfold closePosition
  split
  · exact hinv
  · rename_i p hp
    have hq : 0 ≤ p.quantity := (hinv.2 p hp).1
    refine ⟨?_, ?_⟩
    · show 0 ≤ s.cashKrw + (p.quantity * x - p.quantity * x * cfg.feeRate)
      have hnet : 0 ≤ p.quantity * x * (1 - cfg.feeRate) :=
        mul_nonneg (mul_nonneg hq hx) (by linarith)
      have hc := hinv.1
      nlinarith
    · intro p' hp'
      simp at hp'

theorem holdingStep_inv (env : SimEnv) (s : SimState) (pos : SimulatedPosition) (i : ℕ)
    (price : ℚ) (window : List Candle)
    (hcash : 0 ≤ s.cashKrw)
    (hq : 0 ≤ pos.quantity) (he : 0 ≤ pos.entryPrice)
    (hsl : ∀ t, pos.stopLoss = some t → 0 ≤ t)
    (htp : ∀ t, pos.targetPrice = some t → 0 ≤ t)
    (hprice : 0 ≤ price)
    (hf1 : env.cfg.feeRate ≤ 1)
    (hEp : ∀ ep, env.exitProvider = some ep → ∀ w p x, (ep w p).exitPrice = some x → 0 ≤ x) :
    CashInv (holdingStep env s pos i price window) := by
  simp only [holdingStep]
  split
  · have hinv1 : CashInv { s with position := some ({ pos with stopLoss := some (pos.stopLoss.getD 0 ⊔ pos.entryPrice) }) } := by
      refine ⟨hcash, ?_⟩
      intro p hp
      simp only [Option.some.injEq] at hp
      rw [← hp]
      refine ⟨hq, he, ?_, htp⟩
      intro t htv
      simp only [Option.some.injEq] at htv
      rw [← htv]
      exact le_trans he (le_max_right _ _)
    split
    · exact closePosition_inv _ _ _ _ _ hinv1 (le_trans he (le_max_right _ _)) hf1
    · split
      · exact closePosition_inv _ _ _ _ _ hinv1 (getD_zero_nonneg pos.targetPrice htp) hf1
      · cases hep : env.exitProvider with
        | none => exact hinv1
        | some ep =>
          dsimp only
          split
          · split
            · exact closePosition_inv _ _ _ _ _ hinv1
                (getD_nonneg _ price hprice (fun x hx => hEp ep hep window _ x hx)) hf1
            · exact hinv1
          · exact hinv1
  · have hinv1 : CashInv { s with position := some pos } := by
      refine ⟨hcash, ?_⟩
      intro p hp
      simp only [Option.some.injEq] at hp
      rw [← hp]
      exact ⟨hq, he, hsl, htp⟩
    split
    · exact closePosition_inv _ _ _ _ _ hinv1 (getD_zero_nonneg pos.stopLoss hsl) hf1
    · split
      · exact closePosition_inv _ _ _ _ _ hinv1 (getD_zero_nonneg pos.targetPrice htp) hf1
      · cases hep : env.exitProvider with
        | none => exact hinv1
        | some ep =>
          dsimp only
          split
          · split
            · exact closePosition_inv _ _ _ _ _ hinv1
                (getD_nonneg _ price hprice (fun x hx => hEp ep hep window _ x hx)) hf1
            · exact hinv1
          · exact hinv1

theorem flatStep_inv (env : SimEnv) (s : SimState) (i : ℕ) (price : ℚ)
    (window : List Candle) (hinv : CashInv s)
    (hT : ∀ w sig p x, (env.decisionProvider w sig p).targetPrice = some x → 0 ≤ x)
    (hR : ∀ r, -1 ≤ OrderPlanner.slRatioOf env.cfg.riskPolicy (env.customSlTpFor r) ∧
      OrderPlanner.slRatioOf env.cfg.riskPolicy (env.customSlTpFor r) ≤ 1 ∧
      -1 ≤ OrderPlanner.tpRatioOf env.cfg.riskPolicy (env.customSlTpFor r) ∧
      OrderPlanner.tpRatioOf env.cfg.riskPolicy (env.customSlTpFor r) ≤ 1) :
    CashInv (flatStep env s i price window) := by
  simp only [flatStep]
  cases hsig : detectVolatilitySignal window env.cfg.volatilityThresholds with
  | none =>
    dsimp only
    split
    · exact ⟨hinv.1, fun p hp => hinv.2 p hp⟩
    · split
      · exact ⟨hinv.1, fun p hp => hinv.2 p hp⟩
      · split
        · rename_i hcond
          have hnn := flatBarPlan_nonneg env s i price window hT hR hcond.1
          have hop := openPosition_inv env.cfg
            { s with debugStats :=
                { s.debugStats with noSignal := s.debugStats.noSignal + 1 } } i
            (flatBarPlan env s i price window)
            ⟨hinv.1, fun p hp => hinv.2 p hp⟩ hnn.1 hnn.2.1 hnn.2.2.1 hnn.2.2.2
          exact ⟨hop.1, fun p hp => hop.2 p hp⟩
        · exact ⟨hinv.1, fun p hp => hinv.2 p hp⟩
  | some sg =>
    dsimp only
    split
    · exact ⟨hinv.1, fun p hp => hinv.2 p hp⟩
    · split
      · exact ⟨hinv.1, fun p hp => hinv.2 p hp⟩
      · split
        · rename_i hcond
          have hnn := flatBarPlan_nonneg env s i price window hT hR hcond.1
          have hop := openPosition_inv env.cfg
            { s with signalCount := s.signalCount + 1 } i
            (flatBarPlan env s i price window)
            ⟨hinv.1, fun p hp => hinv.2 p hp⟩ hnn.1 hnn.2.1 hnn.2.2.1 hnn.2.2.2
          exact ⟨hop.1, fun p hp => hop.2 p hp⟩
        · exact ⟨hinv.1, fun p hp => hinv.2 p hp⟩

theorem close_nonneg_getD (cs : List Candle) (h : ∀ c ∈ cs, 0 ≤ c.close) (i : ℕ) :
    0 ≤ (cs.getD i dummyCandle).close := by
  induction cs generalizing i with
  | nil => simp [dummyCandle]
  | cons c rest ih =>
    cases i with
    | zero => simpa [List.getD_cons_zero] using h c (List.mem_cons_self c rest)
    | succ j =>
      simpa [List.getD_cons_succ] using ih (fun v hv => h v (List.mem_cons_of_mem _ hv)) j

theorem stepBar_inv (env : SimEnv) (s : SimState) (i : ℕ) (hinv : CashInv s)
    (hf1 : env.cfg.feeRate ≤ 1)
    (hC : ∀ c ∈ env.candles, 0 ≤ c.close)
    (hEp : ∀ ep, env.exitProvider = some ep → ∀ w p x, (ep w p).exitPrice = some x → 0 ≤ x)
    (hT : ∀ w sig p x, (env.decisionProvider w sig p).targetPrice = some x → 0 ≤ x)
    (hR : ∀ r, -1 ≤ OrderPlanner.slRatioOf env.cfg.riskPolicy (env.customSlTpFor r) ∧
      OrderPlanner.slRatioOf env.cfg.riskPolicy (env.customSlTpFor r) ≤ 1 ∧
      -1 ≤ OrderPlanner.tpRatioOf env.cfg.riskPolicy (env.customSlTpFor r) ∧
      OrderPlanner.tpRatioOf env.cfg.riskPolicy (env.customSlTpFor r) ≤ 1) :
    CashInv (stepBar env s i) := by
  have hprice : 0 ≤ (env.candles.getD i dummyCandle).close := close_nonneg_getD _ hC i
  have hinv1 : CashInv (updateEquity s (env.candles.getD i dummyCandle).close) := by
    refine ⟨?_, ?_⟩
    · rw [updateEquity_cashKrw]; exact hinv.1
    · intro p hp
      rw [updateEquity_position] at hp
      exact hinv.2 p hp
  simp only [stepBar]
  cases hp : (updateEquity s (env.candles.getD i dummyCandle).close).position with
  | some pos =>
    simp only [hp]
    obtain ⟨hq, he, hsl, htp⟩ := hinv1.2 pos hp
    exact holdingStep_inv env _ pos i _ _ hinv1.1 hq he hsl htp hprice hf1 hEp
  | none =>
    simp only [hp]
    exact flatStep_inv env _ i _ _ hinv1 hT hR

theorem runBars_inv (env : SimEnv) (idxs : List ℕ) (s : SimState) (hinv : CashInv s)
    (hf1 : env.cfg.feeRate ≤ 1)
    (hC : ∀ c ∈ env.candles, 0 ≤ c.close)
    (hEp : ∀ ep, env.exitProvider = some ep → ∀ w p x, (ep w p).exitPrice = some x → 0 ≤ x)
    (hT : ∀ w sig p x, (env.decisionProvider w sig p).targetPrice = some x → 0 ≤ x)
    (hR : ∀ r, -1 ≤ OrderPlanner.slRatioOf env.cfg.riskPolicy (env.customSlTpFor r) ∧
      OrderPlanner.slRatioOf env.cfg.riskPolicy (env.customSlTpFor r) ≤ 1 ∧
      -1 ≤ OrderPlanner.tpRatioOf env.cfg.riskPolicy (env.customSlTpFor r) ∧
      OrderPlanner.tpRatioOf env.cfg.riskPolicy (env.customSlTpFor r) ≤ 1) :
    CashInv (runBars env s idxs) := by
  induction idxs generalizing s with
  | nil => exact hinv
  | cons j rest ih =>
    exact ih (stepBar env s j) (stepBar_inv env s j hinv hf1 hC hEp hT hR)

/-- C10 (amended): the cash balance stays non-negative throughout any
`runRange` execution provided that, in addition to the claim's premises
(non-negative initial capital, non-negative candle closes, `feeRate ≤ 1`),
every exit-provider price is non-negative, every decision's explicit
target price is non-negative, and the applied stop/target ratios lie in
`[-1, 1]`.  Without the extra premises the claim is false: see
`C10_negative_cash_counterexample`, where an exit provider's negative exit
price drives cash to -379,999,042,000. -/
theorem C10_cash_never_negative (env : SimEnv) (startIdx endIdx : ℕ)
    (hcap : 0 ≤ env.cfg.initialCapitalKrw)
    (hf1 : env.cfg.feeRate ≤ 1)
    (hC : ∀ c ∈ env.candles, 0 ≤ c.close)
    (hEp : ∀ ep, env.exitProvider = some ep → ∀ w p x, (ep w p).exitPrice = some x → 0 ≤ x)
    (hT : ∀ w sig p x, (env.decisionProvider w sig p).targetPrice = some x → 0 ≤ x)
    (hR : ∀ r, -1 ≤ OrderPlanner.slRatioOf env.cfg.riskPolicy (env.customSlTpFor r) ∧
      OrderPlanner.slRatioOf env.cfg.riskPolicy (env.customSlTpFor r) ≤ 1 ∧
      -1 ≤ OrderPlanner.tpRatioOf env.cfg.riskPolicy (env.customSlTpFor r) ∧
      OrderPlanner.tpRatioOf env.cfg.riskPolicy (env.customSlTpFor r) ≤ 1) :
    0 ≤ (runRangeState env startIdx endIdx).cashKrw := by
  have hinit : CashInv (initialSimState env.cfg) := by
    refine ⟨hcap, ?_⟩
    intro p hp
    simp [initialSimState] at hp
  have hrun := runBars_inv env
    (List.range' (max startIdx 250) (min endIdx env.candles.length - max startIdx 250))
    (initialSimState env.cfg) hinit hf1 hC hEp hT hR
  simp only [runRangeState]
  cases hp : (runBars env (initialSimState env.cfg)
      (List.range' (max startIdx 250)
        (min endIdx env.candles.length - max startIdx 250))).position with
  | some pos =>
    simp only [hp]
    exact (closePosition_inv env.cfg _ _ _ _ hrun (close_nonneg_getD _ hC _) hf1).1
  | none =>
    simp only [hp]
    exact hrun.1

theorem C10_cash_never_negative_witness :
    0 ≤ (runRangeState wEnv6 0 252).cashKrw :=
  C10_cash_never_negative wEnv6 0 252
    (by norm_num [wEnv6, wCfg])
    (by norm_num [wEnv6, wCfg])
    (fun c hc => by
      rw [List.eq_of_mem_replicate (show c ∈ List.replicate 252 (flatC 101 1000) from hc)]
      norm_num [flatC])
    (fun ep h => Option.noConfusion h)
    (fun w sig p x hx => Option.noConfusion hx)
    (fun r => by norm_num [wEnv6, wCfg, OrderPlanner.slRatioOf, OrderPlanner.tpRatioOf,
      OrderPlanner.wRisk])

/-- C10 counterexample: all of the claim's stated premises hold (non-negative
initial capital and fee rate, fee rate at most 1, non-negative candle closes),
yet after the long opened at bar 250 is closed at bar 251 through the exit
provider's price of -1,000,000,000, the final cash balance is
-379,999,042,000. -/
theorem C10_negative_cash_counterexample :
    0 ≤ cx10Env.cfg.initialCapitalKrw ∧ 0 ≤ cx10Env.cfg.feeRate ∧ cx10Env.cfg.feeRate ≤ 1 ∧
    (∀ c ∈ cx10Env.candles, 0 ≤ c.close) ∧
    (runRangeState cx10Env 0 252).cashKrw = -379999042000 := by
  refine ⟨by norm_num [cx10Env, cx10Cfg], by norm_num [cx10Env, cx10Cfg],
    by norm_num [cx10Env, cx10Cfg], ?_, ?_⟩
  · intro c hc
    rw [List.eq_of_mem_replicate (show c ∈ List.replicate 252 (flatC 100 1000) from hc)]
    norm_num [flatC]
  · norm_num [runRangeState, runBars, stepBar, updateEquity, flatStep, flatBarPlan_const_none,
      holdingStep, openPosition, closePosition, buildPortfolio, initialSimState, windowAt,
      truthyQ, detectVolatilitySignal, detectVolatilitySignalAt, pickBestVolatilitySignal,
      buildAtrSpikeCandidate, buildPriceSurgeCandidate, buildVolumeSpikeCandidate,
      buildDirection3, calcAtrWilderWindow, trueRange,
      OrderPlanner.planOrder, OrderPlanner.confidenceFactor, OrderPlanner.clamp,
      OrderPlanner.appliedRiskPctCalc,
      OrderPlanner.positiveNum, OrderPlanner.riskAmountCalc, OrderPlanner.quantityByRiskCalc,
      OrderPlanner.maxAllowedOf, OrderPlanner.finalNotionalOf, OrderPlanner.stopLossOf,
      OrderPlanner.slRatioOf, OrderPlanner.tpRatioOf, OrderPlanner.targetPriceOf,
      OrderPlanner.perUnitRiskCalc, OrderPlanner.checkRewardAfterFees, OrderPlanner.calcStopLoss,
      OrderPlanner.symbolExposureBefore, OrderPlanner.calcSymbolExposure,
      OrderPlanner.calcTotalExposure, OrderPlanner.findPosition, OrderPlanner.roundQty, round_eq,
      cx10Env, cx10Cfg, cx10Exit, w3Risk, alwaysLong120, wTh, flatC, dummyCandle,
      take_replicate, drop_replicate, foldl_volume_replicate,
      List.getD_eq_getElem?_getD, List.getElem?_replicate, List.range', List.insertionSort,
      List.orderedInsert, List.head?, abs_of_pos, abs_of_nonneg, abs_of_nonpos,
      decide_eq_true_eq, Option.some_ne_none]

/-- C8: on 40 flat bars at price 100 where bar 35 closes at 103, with
thresholds `priceSurgePct = 0.015` (and representative `atrMultiplier = 0.6`,
`volumeSpikeMultiplier = 2`), detection at bar index 35 returns a
`PRICE_SURGE` signal with direction `UP`: the 3% one-bar change exceeds the
1.5% threshold and no other candidate fires. -/
theorem C8_price_surge_detected_at_bar_35 :
    detectVolatilitySignalAt candles40 wTh 35 =
      some { type := .PRICE_SURGE, value := 3, threshold := 3/2, direction := .UP,
             timestamp := 35, atrPercent := some (3/1442) } := by
  norm_num [detectVolatilitySignalAt, pickBestVolatilitySignal, buildAtrSpikeCandidate,
    buildPriceSurgeCandidate, buildVolumeSpikeCandidate, buildDirection3, calcAtrWilderWindow,
    trueRange, candles40, c100, c103, wTh, List.replicate, List.range',
    List.insertionSort, List.orderedInsert, List.head?, abs_of_pos, abs_of_nonneg,
    abs_of_nonpos]

end CoinAI
